import Mathlib

set_option maxHeartbeats 1000000

/-! Verification development for the usdr-lib streaming tool: a shallow
embedding of src/tools/usdr_dm_create.c, src/lib/models/dm_stream.c and
src/lib/xdsp/conv_f32_i12_2.c, with theorems settling the frozen claims
about synchronization order, timestamp scheduling, error policy, teardown,
ring-buffer usage, converter selection and the thin stream wrappers. -/

/- ===== Section 1: format converter selection (conv_f32_i12_2.c) ===== -/

/-- Modelled from the spec: the CPU capability tier type (generic_opts_t from
attribute_switch.h, which is not under src). Only the AVX2 feature is
relevant to this translation unit, so a tier records whether it grants the
AVX2 feature set. -/
structure generic_opts_t where
  avx2 : Bool
deriving DecidableEq

/-- Identity of a conversion function selectable in this translation unit. -/
inductive conv_function_t where
  | generic
  | avx2
deriving DecidableEq

/-- CPU features a conversion function requires: the AVX2 variant requires
the AVX2 feature set, the generic variant requires nothing. -/
def conv_requires_avx2 : conv_function_t → Bool
  | conv_function_t.generic => false
  | conv_function_t.avx2 => true

/-- Translation of conv_get_f32_i12_c. The SELECT_GENERIC_FN and
SELECT_AVX2_FN macros are modelled from the spec (their header is not under
src): the generic implementation is the unconditional fallback, and the AVX2
implementation overrides it exactly when the build contains it (WVLT_AVX)
and the given capability tier grants AVX2. The returned pair is the selected
function and the name written through sfunc. -/
def conv_get_f32_i12_c (wvlt_avx : Bool) (cpu_cap : generic_opts_t) :
    conv_function_t × String :=
  if wvlt_avx && cpu_cap.avx2 then (conv_function_t.avx2, "conv_f32_i12_avx2")
  else (conv_function_t.generic, "conv_f32_i12_generic")

/-- Modelled from the spec: the process-wide state behind cpu_vcap_get.
It holds the immutable hardware capability and the cached probe result
(none before the first probe). -/
structure vcap_state where
  hw : generic_opts_t
  cached : Option generic_opts_t
deriving DecidableEq

/-- Modelled from the spec: cpu_vcap_get probes the actual CPU capability
once and caches it; later calls return the cached value. -/
def cpu_vcap_get (s : vcap_state) : generic_opts_t × vcap_state :=
  match s.cached with
  | some v => (v, s)
  | none => (s.hw, ⟨s.hw, some s.hw⟩)

/-- Translation of conv_get_f32_i12: calls conv_get_f32_i12_c on the probed
capability, with the probe cache threaded explicitly. -/
def conv_get_f32_i12 (wvlt_avx : Bool) (s : vcap_state) :
    conv_function_t × vcap_state :=
  ((conv_get_f32_i12_c wvlt_avx (cpu_vcap_get s).1).1, (cpu_vcap_get s).2)

/-- The probe cache is either empty or holds the hardware capability. -/
def vcap_ok (s : vcap_state) : Prop :=
  s.cached = none ∨ s.cached = some s.hw

/- ===== Section 2: stream model wrappers (dm_stream.c) ===== -/

/-- An acquired stream handle (opaque; identified by a number). -/
structure stream_handle where
  id : Nat
deriving DecidableEq

/-- The low-level device behind pdm_dev_t: its create_stream entry point,
taking (sobj, dformat, channels, pktsyms, flags) and returning the result
code together with the stream handle written through the out pointer. -/
structure device_t where
  create_stream : String → String → Nat → Nat → Nat → Int × Option stream_handle

/-- Translation of usdr_dms_create_ex: forwards all arguments to the
device's create_stream. -/
def usdr_dms_create_ex (dev : device_t) (sobj dformat : String)
    (channels pktsyms flags : Nat) : Int × Option stream_handle :=
  dev.create_stream sobj dformat channels pktsyms flags

/-- Translation of usdr_dms_create: calls usdr_dms_create_ex with flags 0. -/
def usdr_dms_create (dev : device_t) (sobj dformat : String)
    (channels pktsyms : Nat) : Int × Option stream_handle :=
  usdr_dms_create_ex dev sobj dformat channels pktsyms 0

/-- Truncation of a C int64_t value to a C int (32-bit two's complement),
as performed by the `return fd;` conversion in usdr_dms_get_fd. -/
def int32_of (x : Int) : Int := (x + 2 ^ 31) % 2 ^ 32 - 2 ^ 31

/-- What usdr_dms_get_fd observes from the backend: the result code of
option_get(h, "fd", &fd) and the int64_t value it wrote. -/
structure fd_probe where
  res : Int
  fd : Int
deriving DecidableEq

/-- Translation of usdr_dms_get_fd: returns the option_get error code when
it is nonzero, otherwise the retrieved fd truncated to int. -/
def usdr_dms_get_fd (h : fd_probe) : Int :=
  if h.res ≠ 0 then h.res else int32_of h.fd

/- ===== Theorems: claims C3, C4, C9, C10 ===== -/

/-- C3: conv_get_f32_i12_c returns the AVX2 function exactly when the build
has the AVX2 variant and the capability tier grants AVX2, and the generic
function otherwise; the selected function never requires AVX2 unless the
tier grants it; and the result is always one of the two implementations. -/
theorem conv_get_f32_i12_c_selection (wvlt_avx : Bool) (cpu_cap : generic_opts_t) :
    ((conv_get_f32_i12_c wvlt_avx cpu_cap).1 = conv_function_t.avx2 ↔
      (wvlt_avx = true ∧ cpu_cap.avx2 = true)) ∧
    (conv_requires_avx2 (conv_get_f32_i12_c wvlt_avx cpu_cap).1 = true →
      cpu_cap.avx2 = true) ∧
    ((conv_get_f32_i12_c wvlt_avx cpu_cap).1 = conv_function_t.avx2 ∨
      (conv_get_f32_i12_c wvlt_avx cpu_cap).1 = conv_function_t.generic) := by
  cases wvlt_avx <;> cases cpu_cap <;> rename_i a <;> cases a <;>
    simp [conv_get_f32_i12_c, conv_requires_avx2]

/-- C3 witness: at the full capability tier in an AVX2-enabled build the
AVX2 function is selected, and it indeed requires AVX2. -/
theorem conv_get_f32_i12_c_selection_witness :
    (conv_get_f32_i12_c true ⟨true⟩).1 = conv_function_t.avx2 ∧
    ((conv_get_f32_i12_c true ⟨true⟩).1 = conv_function_t.avx2 ∨
      (conv_get_f32_i12_c true ⟨true⟩).1 = conv_function_t.generic) :=
  ⟨(conv_get_f32_i12_c_selection true ⟨true⟩).1.mpr ⟨rfl, rfl⟩,
   (conv_get_f32_i12_c_selection true ⟨true⟩).2.2⟩

/-- C4: selection is deterministic for the life of the process. For a fixed
tier, conv_get_f32_i12_c is a fixed function of its arguments; and two
successive calls of conv_get_f32_i12 return the same function identity,
because the capability probe result is cached and never changes. -/
theorem conv_get_f32_i12_deterministic (wvlt_avx : Bool) (s : vcap_state)
    (h : vcap_ok s) :
    (∀ cpu_cap : generic_opts_t,
      (conv_get_f32_i12_c wvlt_avx cpu_cap).1 = (conv_get_f32_i12_c wvlt_avx cpu_cap).1) ∧
    (conv_get_f32_i12 wvlt_avx s).1 =
      (conv_get_f32_i12 wvlt_avx (conv_get_f32_i12 wvlt_avx s).2).1 := by
  refine ⟨fun _ => rfl, ?_⟩
  rcases h with h | h <;>
    simp [conv_get_f32_i12, cpu_vcap_get, h]

/-- C4 witness: starting from the unprobed state on AVX2 hardware, the first
and the second call of conv_get_f32_i12 agree. -/
theorem conv_get_f32_i12_deterministic_witness :
    (conv_get_f32_i12 true ⟨⟨true⟩, none⟩).1 =
      (conv_get_f32_i12 true (conv_get_f32_i12 true ⟨⟨true⟩, none⟩).2).1 :=
  (conv_get_f32_i12_deterministic true ⟨⟨true⟩, none⟩ (Or.inl rfl)).2

/-- C9: usdr_dms_create returns exactly the result code and stream handle of
usdr_dms_create_ex called with the same arguments and flags = 0. -/
theorem usdr_dms_create_eq_create_ex (dev : device_t) (sobj dformat : String)
    (channels pktsyms : Nat) :
    usdr_dms_create dev sobj dformat channels pktsyms =
      usdr_dms_create_ex dev sobj dformat channels pktsyms 0 := rfl

/-- C10: usdr_dms_get_fd returns the backend error code when option_get
fails (nonzero res), otherwise the retrieved 64-bit value truncated to int;
a zero fd on success is returned as 0, on the same integer channel. -/
theorem usdr_dms_get_fd_spec (h : fd_probe) :
    (h.res ≠ 0 → usdr_dms_get_fd h = h.res) ∧
    (h.res = 0 → usdr_dms_get_fd h = int32_of h.fd) ∧
    (h.res = 0 → h.fd = 0 → usdr_dms_get_fd h = 0) := by
  refine ⟨fun hr => ?_, fun hr => ?_, fun hr hf => ?_⟩ <;>
    simp [usdr_dms_get_fd, int32_of, hr]
  simp [hf]

/-- C10 witness: a failing probe returns its error code; a successful probe
with fd 7 returns 7; a successful probe with fd 0 returns 0. -/
theorem usdr_dms_get_fd_spec_witness :
    usdr_dms_get_fd ⟨-5, 7⟩ = -5 ∧ usdr_dms_get_fd ⟨0, 7⟩ = int32_of 7 ∧
      usdr_dms_get_fd ⟨0, 0⟩ = 0 :=
  ⟨(usdr_dms_get_fd_spec ⟨-5, 7⟩).1 (by decide),
   (usdr_dms_get_fd_spec ⟨0, 7⟩).2.1 rfl,
   (usdr_dms_get_fd_spec ⟨0, 0⟩).2.2 rfl rfl⟩

/- ===== Section 3: the streaming session (usdr_dm_create.c main) ===== -/

/-- The uint64_t all-ones sentinel (UINT64_MAX, written ~0ull at line 815)
passed to usdr_dms_send to mean "immediate, no timestamp". -/
def U64MAX : Nat := 18446744073709551615

/-- Modulus of uint64_t arithmetic (the type of the stm / ts counters). -/
def U64MOD : Nat := 18446744073709551616

/-- Modelled from the spec: the Timeout sentinel returned by the ring-buffer
wait calls (ring_buffer.h is not under src). It is the all-ones unsigned
value, distinct from every valid slot index. -/
def IDX_TIMEDOUT : Nat := 4294967295

/-- Which stream an event concerns: the RX stream usds_rx (strms[0]) or the
TX stream usds_tx (strms[1]). -/
inductive StrId where
  | rx
  | tx
deriving DecidableEq

/-- Observable events of one run of main: each constructor records one call
into the device/stream layer together with the result code the call
returned. A buffer passed to send/recv is the slot (channel, index) obtained
from ring_buffer_at on that channel's ring with that index. -/
inductive Ev where
  | dmeSet (path : String) (res : Int)
  | rateSet (res : Int)
  | rxCreate (res : Int)
  | rxInfo (res : Int)
  | txCreate (res : Int)
  | txInfo (res : Int)
  | sync (mode : String) (res : Int)
  | start (s : StrId) (ts : Nat) (res : Int)
  | stopS (s : StrId) (res : Int)
  | send (bufs : List (Nat × Nat)) (samples : Nat) (ts : Nat) (res : Int)
  | recv (bufs : List (Nat × Nat)) (res : Int)
  | findsetv (res : Int)
  | destroy (s : StrId)
  | devClose
deriving DecidableEq

/-- The command-line configuration of a run, after getopt: the mode flags
(options t, T, N, X, z, o, I, c), buffer sizes, block count, format and sync
type. dorx defaults to true and dotx to false; option t gives dotx without
dorx, option T gives both, so dotx or dorx always holds in a real run. -/
structure Cfg where
  dotx : Bool
  dorx : Bool
  nots : Bool
  stop_on_error : Bool
  noinit : Bool
  refclk : Bool
  tx_from_file : Bool
  explicit_count : Bool
  tx_file_cycle : Bool
  samples_tx : Nat
  samples_rx : Nat
  count : Nat
  resync : Nat
  cal_freq : Nat
  fmt : String
  synctype : String

/-- The environment of a run: the results every external call returns, and
the stream geometry the backend reports. Functions indexed by iteration or
channel give the results of calls made inside loops. -/
structure Env where
  in_file0_ok : Bool
  out_file0_ok : Bool
  file_size : Nat
  dev_create_res : Int
  refclk_res : Int
  power_res : Int
  rate_res : Int
  rxlml_res : Int
  rx_create_res : Int
  rx_info_res : Int
  rx_channels : Nat
  tx_create_res : Int
  tx_info_res : Int
  tx_channels : Nat
  rx_file_ok : Nat → Bool
  rx_thread_res : Nat → Int
  tx_thread_res : Nat → Int
  cal_res : Int
  sync_off_res : Int
  rx_start_res : Int
  tx_start_res : Int
  sync_mode_res : Int
  ant_res : Int
  findsetv_res : Int
  resync_res : Int
  s_stop : Nat → Bool
  tx_cwait : Nat → Nat → Nat
  rx_pwait : Nat → Nat → Nat
  send_res : Nat → Int
  recv_res : Nat → Int
  rx_stop_res : Int
  tx_stop_res : Int

/-- The dev_close label (lines 889-895): destroy strms[1] then strms[0],
each only when non-NULL, then close the device. The two flags say which
entries of strms are non-NULL. -/
def teardownEv (txAcq rxAcq : Bool) : List Ev :=
  (if txAcq then [Ev.destroy StrId.tx] else []) ++
    (if rxAcq then [Ev.destroy StrId.rx] else []) ++ [Ev.devClose]

/-- The stop label (lines 848-887): stop RX then TX (a failed RX stop jumps
to dev_close and skips the TX stop), then join workers and fall into
dev_close. Reached only from the transfer loop, where the null checks of
lines 736-741 guarantee each enabled stream's handle is non-NULL. -/
def stopTrace (c : Cfg) (e : Env) : List Ev :=
  (if c.dorx then
    Ev.stopS StrId.rx e.rx_stop_res ::
      (if e.rx_stop_res ≠ 0 then []
       else if c.dotx then [Ev.stopS StrId.tx e.tx_stop_res] else [])
   else if c.dotx then [Ev.stopS StrId.tx e.tx_stop_res] else []) ++
    teardownEv c.dotx c.dorx

/-- TX-only transfer loop (lines 744-766): per iteration, wait on each TX
ring (a timed-out index is logged but still used to take the slot address),
send the block at timestamp stm (or the sentinel with -N), stop the loop on
a send error, and advance stm by samples_tx in uint64 arithmetic. -/
def txOnlyLoop (c : Cfg) (e : Env) (txBuf : Nat) : Nat → Nat → Nat → List Ev
  | _, _, 0 => []
  | stm, i, fuel + 1 =>
    if e.s_stop i then []
    else
      Ev.send ((List.range txBuf).map fun b => (b, e.tx_cwait i b)) c.samples_tx
          (if c.nots then U64MAX else stm) (e.send_res i) ::
        (if e.send_res i ≠ 0 then []
         else txOnlyLoop c e txBuf ((stm + c.samples_tx) % U64MOD) (i + 1) fuel)

/-- RX-only transfer loop (lines 769-794): wait on each RX ring (a timed-out
index is logged but still used), receive, stop the loop on a recv error,
and fire the resync parameter write on iteration number resync. -/
def rxOnlyLoop (c : Cfg) (e : Env) (rxBuf : Nat) : Nat → Nat → List Ev
  | _, 0 => []
  | i, fuel + 1 =>
    if e.s_stop i then []
    else
      Ev.recv ((List.range rxBuf).map fun b => (b, e.rx_pwait i b)) (e.recv_res i) ::
        (if e.recv_res i ≠ 0 then []
         else
           (if i = c.resync then [Ev.dmeSet "/dm/resync" e.resync_res] else []) ++
             rxOnlyLoop c e rxBuf (i + 1) fuel)

/-- Combined TX+RX transfer loop (lines 797-846): send the TX block at
timestamp ts (or the sentinel with -N), then receive one RX block; either
error ends the loop; ts advances by samples_tx per iteration. -/
def txrxLoop (c : Cfg) (e : Env) (txBuf rxBuf : Nat) : Nat → Nat → Nat → List Ev
  | _, _, 0 => []
  | ts, i, fuel + 1 =>
    if e.s_stop i then []
    else
      Ev.send ((List.range txBuf).map fun b => (b, e.tx_cwait i b)) c.samples_tx
          (if c.nots then U64MAX else ts) (e.send_res i) ::
        (if e.send_res i ≠ 0 then []
         else
           Ev.recv ((List.range rxBuf).map fun b => (b, e.rx_pwait i b)) (e.recv_res i) ::
             (if e.recv_res i ≠ 0 then []
              else txrxLoop c e txBuf rxBuf ((ts + c.samples_tx) % U64MOD) (i + 1) fuel))

/-- The block count actually used: when transmitting from a file without an
explicit -c and without cycling, count is recomputed from the file size and
the TX block byte size (lines 495-504); otherwise it is the -c value. -/
def effCount (c : Cfg) (e : Env) : Nat :=
  if c.dotx ∧ c.tx_from_file ∧ ¬c.explicit_count ∧ ¬c.tx_file_cycle then
    e.file_size / (c.samples_tx * (if c.fmt = "ci16" then 4 else 8)) +
      (if e.file_size % (c.samples_tx * (if c.fmt = "ci16" then 4 else 8)) ≠ 0 then 1
       else 0)
  else c.count

/-- start_tx_delay = samples_tx (line 470): one full TX block of samples. -/
def start_tx_delay (c : Cfg) : Nat := c.samples_tx

/-- Which transfer loop runs (lines 744, 769, 797): TX-only, RX-only, or the
combined loop; the timestamp counters start at start_tx_delay. -/
def loopTrace (c : Cfg) (e : Env) (txBuf rxBuf : Nat) : List Ev :=
  if c.dotx ∧ ¬c.dorx then txOnlyLoop c e txBuf (start_tx_delay c) 0 (effCount c e)
  else if c.dorx ∧ ¬c.dotx then rxOnlyLoop c e rxBuf 0 (effCount c e)
  else txrxLoop c e txBuf rxBuf (start_tx_delay c) 0 (effCount c e)

/-- Null checks of lines 736-741: an enabled stream with a NULL handle jumps
to dev_close; otherwise the transfer loop runs and falls into stop. -/
def nullChecks (c : Cfg) (e : Env) (txAcq rxAcq : Bool) (txBuf rxBuf : Nat) : List Ev :=
  if c.dotx ∧ ¬txAcq then teardownEv txAcq rxAcq
  else if c.dorx ∧ ¬rxAcq then teardownEv txAcq rxAcq
  else loopTrace c e txBuf rxBuf ++ stopTrace c e

/-- Lines 725-731: without -X, set the dev_data parameters through
usdr_dme_findsetv_uint; a failure aborts only under stop_on_error. -/
def findsetvReg (c : Cfg) (e : Env) (txAcq rxAcq : Bool) (txBuf rxBuf : Nat) : List Ev :=
  if c.noinit then nullChecks c e txAcq rxAcq txBuf rxBuf
  else
    Ev.findsetv e.findsetv_res ::
      (if e.findsetv_res ≠ 0 ∧ c.stop_on_error then teardownEv txAcq rxAcq
       else nullChecks c e txAcq rxAcq txBuf rxBuf)

/-- Lines 718-722: the antenna configuration write; a failure is only
logged, it never aborts. -/
def antReg (c : Cfg) (e : Env) (txAcq rxAcq : Bool) (txBuf rxBuf : Nat) : List Ev :=
  Ev.dmeSet "/dm/sdr/0/tfe/antcfg" e.ant_res :: findsetvReg c e txAcq rxAcq txBuf rxBuf

/-- Lines 710-715: the second usdr_dms_sync call, with the caller-requested
sync type; a failure aborts only under stop_on_error. -/
def syncModeReg (c : Cfg) (e : Env) (txAcq rxAcq : Bool) (txBuf rxBuf : Nat) : List Ev :=
  Ev.sync c.synctype e.sync_mode_res ::
    (if e.sync_mode_res ≠ 0 ∧ c.stop_on_error then teardownEv txAcq rxAcq
     else antReg c e txAcq rxAcq txBuf rxBuf)

/-- Lines 701-708: start the TX stream. With a NULL handle the op is not
called and res is -EPROTONOSUPPORT; any nonzero res aborts only under
stop_on_error. -/
def startTxReg (c : Cfg) (e : Env) (txAcq rxAcq : Bool) (txBuf rxBuf : Nat) : List Ev :=
  if c.dotx then
    if txAcq then
      Ev.start StrId.tx 0 e.tx_start_res ::
        (if e.tx_start_res ≠ 0 ∧ c.stop_on_error then teardownEv txAcq rxAcq
         else syncModeReg c e txAcq rxAcq txBuf rxBuf)
    else if c.stop_on_error then teardownEv txAcq rxAcq
    else syncModeReg c e txAcq rxAcq txBuf rxBuf
  else syncModeReg c e txAcq rxAcq txBuf rxBuf

/-- Lines 692-699: start the RX stream, as for TX. -/
def startRxReg (c : Cfg) (e : Env) (txAcq rxAcq : Bool) (txBuf rxBuf : Nat) : List Ev :=
  if c.dorx then
    if rxAcq then
      Ev.start StrId.rx 0 e.rx_start_res ::
        (if e.rx_start_res ≠ 0 ∧ c.stop_on_error then teardownEv txAcq rxAcq
         else startTxReg c e txAcq rxAcq txBuf rxBuf)
    else if c.stop_on_error then teardownEv txAcq rxAcq
    else startTxReg c e txAcq rxAcq txBuf rxBuf
  else startTxReg c e txAcq rxAcq txBuf rxBuf

/-- Lines 684-690: strms is filled from usds_tx/usds_rx, then the first
usdr_dms_sync call with mode "off"; a failure aborts only under
stop_on_error. From here on dev_close destroys the acquired handles. -/
def syncOffReg (c : Cfg) (e : Env) (txAcq rxAcq : Bool) (txBuf rxBuf : Nat) : List Ev :=
  Ev.sync "off" e.sync_off_res ::
    (if e.sync_off_res ≠ 0 ∧ c.stop_on_error then teardownEv txAcq rxAcq
     else startRxReg c e txAcq rxAcq txBuf rxBuf)

/-- Lines 676-682: the calibration frequency write when cal_freq > 1e6; a
failure is only logged. -/
def calReg (c : Cfg) (e : Env) (txAcq rxAcq : Bool) (txBuf rxBuf : Nat) : List Ev :=
  (if c.cal_freq > 1000000 then [Ev.dmeSet "/dm/sync/cal/freq" e.cal_res] else []) ++
    syncOffReg c e txAcq rxAcq txBuf rxBuf

/-- All additional RX output files (indices 1..rxBuf-1) open successfully. -/
def rxFilesOkB (e : Env) (rxBuf : Nat) : Bool :=
  (List.range rxBuf).all fun f => f == 0 || e.rx_file_ok f

/-- All worker-thread creations for indices below n succeed. -/
def threadsOkB (r : Nat → Int) (n : Nat) : Bool :=
  (List.range n).all fun i => r i == 0

/-- Lines 646-667: with RX enabled, open the extra per-channel output files
(a failure is return 3 - the process exits with no teardown at all), then
spawn the RX writer threads (a failure jumps to dev_close while strms is
still all NULL). -/
def rxThreadsReg (c : Cfg) (e : Env) (txAcq rxAcq : Bool) (txBuf rxBuf : Nat) : List Ev :=
  if c.dorx then
    if rxFilesOkB e rxBuf then
      if threadsOkB e.rx_thread_res rxBuf then calReg c e txAcq rxAcq txBuf rxBuf
      else teardownEv false false
    else []
  else calReg c e txAcq rxAcq txBuf rxBuf

/-- Lines 631-644: with TX enabled, spawn the TX producer threads; a failure
jumps to dev_close while strms is still all NULL. -/
def txThreadsReg (c : Cfg) (e : Env) (txAcq rxAcq : Bool) (txBuf rxBuf : Nat) : List Ev :=
  if c.dotx then
    if threadsOkB e.tx_thread_res txBuf then rxThreadsReg c e txAcq rxAcq txBuf rxBuf
    else teardownEv false false
  else rxThreadsReg c e txAcq rxAcq txBuf rxBuf

/-- Lines 624-627: the MAX_CHS bound check; exceeding it aborts only under
stop_on_error, and strms is still all NULL at this point. -/
def maxChsReg (c : Cfg) (e : Env) (txAcq rxAcq : Bool) (txBuf rxBuf : Nat) : List Ev :=
  if (rxBuf > 32 ∨ txBuf > 32) ∧ c.stop_on_error then teardownEv false false
  else txThreadsReg c e txAcq rxAcq txBuf rxBuf

/-- Lines 600-619: with TX enabled, create the TX stream and query its info;
a failure aborts under stop_on_error (with strms still all NULL), and with
stop_on_error false the run continues with a zero TX buffer count (and,
after a create failure, a NULL TX handle). -/
def txOpenReg (c : Cfg) (e : Env) (rxAcq : Bool) (rxBuf : Nat) : List Ev :=
  if c.dotx then
    Ev.txCreate e.tx_create_res ::
      (if e.tx_create_res ≠ 0 then
        if c.stop_on_error then teardownEv false false
        else maxChsReg c e false rxAcq 0 rxBuf
       else
         Ev.txInfo e.tx_info_res ::
           (if e.tx_info_res ≠ 0 then
             if c.stop_on_error then teardownEv false false
             else maxChsReg c e true rxAcq 0 rxBuf
            else maxChsReg c e true rxAcq e.tx_channels rxBuf))
  else maxChsReg c e false rxAcq 0 rxBuf

/-- Lines 578-598: with RX enabled, create the RX stream (with the
DMS_FLAG_NEED_TX_STAT flags) and query its info, as for TX. -/
def rxOpenReg (c : Cfg) (e : Env) : List Ev :=
  if c.dorx then
    Ev.rxCreate e.rx_create_res ::
      (if e.rx_create_res ≠ 0 then
        if c.stop_on_error then teardownEv false false
        else txOpenReg c e false 0
       else
         Ev.rxInfo e.rx_info_res ::
           (if e.rx_info_res ≠ 0 then
             if c.stop_on_error then teardownEv false false
             else txOpenReg c e true 0
            else txOpenReg c e true e.rx_channels))
  else txOpenReg c e false 0

/-- Lines 551-576: the optional refclk path write, then without -X the power
enable write (logged only), the sample-rate set (aborts under
stop_on_error) and the rxlml debug write (result ignored). -/
def afterDevReg (c : Cfg) (e : Env) : List Ev :=
  (if c.refclk then [Ev.dmeSet "/dm/sdr/refclk/path" e.refclk_res] else []) ++
    (if c.noinit then rxOpenReg c e
     else
       Ev.dmeSet "/dm/power/en" e.power_res :: Ev.rateSet e.rate_res ::
         (if e.rate_res ≠ 0 ∧ c.stop_on_error then teardownEv false false
          else Ev.dmeSet "/debug/hw/lms7002m/0/rxlml" e.rxlml_res :: rxOpenReg c e))

/-- The observable device/stream events of one run of main, from the data
file opens (lines 486-524, failure is return 3 with no trace) and the
device open (lines 526-531, failure is return 1) onwards. -/
def main_trace (c : Cfg) (e : Env) : List Ev :=
  if c.dotx ∧ ¬e.in_file0_ok then []
  else if c.dorx ∧ ¬e.out_file0_ok then []
  else if e.dev_create_res ≠ 0 then []
  else afterDevReg c e

/- ===== Section 4: trace observations and basic lemmas ===== -/

/-- The timestamp of a send event, if the event is a send. -/
def sendTime : Ev → Option Nat
  | Ev.send _ _ ts _ => some ts
  | _ => none

/-- The timestamps passed to usdr_dms_send during a run, in call order. -/
def sendTimes (l : List Ev) : List Nat := l.filterMap sendTime

theorem sendTimes_cons_none (ev : Ev) (l : List Ev) (h : sendTime ev = none) :
    sendTimes (ev :: l) = sendTimes l := by
  simp [sendTimes, List.filterMap_cons, h]

theorem sendTimes_append (l1 l2 : List Ev) :
    sendTimes (l1 ++ l2) = sendTimes l1 ++ sendTimes l2 := by
  simp [sendTimes]

theorem sendTimes_teardown (a b : Bool) : sendTimes (teardownEv a b) = [] := by
  cases a <;> cases b <;> rfl

theorem sendTimes_stopTrace (c : Cfg) (e : Env) : sendTimes (stopTrace c e) = [] := by
  unfold stopTrace
  rw [sendTimes_append, sendTimes_teardown]
  split
  · rw [sendTimes_cons_none]
    · split
      · rfl
      · split <;> rfl
    · rfl
  · split <;> rfl

theorem sendTimes_rxOnlyLoop (c : Cfg) (e : Env) (rxBuf : Nat) :
    ∀ fuel i, sendTimes (rxOnlyLoop c e rxBuf i fuel) = [] := by
  intro fuel
  induction fuel with
  | zero => intro i; rfl
  | succ f ih =>
    intro i
    unfold rxOnlyLoop
    split
    · rfl
    · rw [sendTimes_cons_none]
      · split
        · rfl
        · rw [sendTimes_append, ih]
          split <;> rfl
      · rfl

/-- In the TX-only loop started at counter value stm below 2^64, the nth
send timestamp is stm + n blocks (mod 2^64), or the sentinel with -N. -/
theorem txOnlyLoop_sendTimes_get (c : Cfg) (e : Env) (txBuf : Nat) :
    ∀ fuel stm i n ts, stm < U64MOD →
      (sendTimes (txOnlyLoop c e txBuf stm i fuel)).get? n = some ts →
      ts = if c.nots then U64MAX else (stm + n * c.samples_tx) % U64MOD := by
  intro fuel
  induction fuel with
  | zero =>
    intro stm i n ts _ h
    simp [txOnlyLoop, sendTimes] at h
  | succ f ih =>
    intro stm i n ts hlt h
    unfold txOnlyLoop at h
    rcases hs : e.s_stop i with _ | _
    · rw [hs] at h
      simp only [Bool.false_eq_true, if_false] at h
      have hst : sendTimes (Ev.send ((List.range txBuf).map fun b => (b, e.tx_cwait i b))
          c.samples_tx (if c.nots then U64MAX else stm) (e.send_res i) ::
            (if e.send_res i ≠ 0 then []
             else txOnlyLoop c e txBuf ((stm + c.samples_tx) % U64MOD) (i + 1) f)) =
          (if c.nots then U64MAX else stm) ::
            sendTimes (if e.send_res i ≠ 0 then []
              else txOnlyLoop c e txBuf ((stm + c.samples_tx) % U64MOD) (i + 1) f) := by
        simp [sendTimes, List.filterMap_cons, sendTime]
      rw [hst] at h
      cases n with
      | zero =>
        simp only [List.get?] at h
        cases h
        by_cases hn : c.nots
        · simp [hn]
        · simp [hn, Nat.mod_eq_of_lt hlt]
      | succ m =>
        simp only [List.get?] at h
        by_cases hr : e.send_res i ≠ 0
        · rw [if_pos hr] at h
          simp [sendTimes] at h
        · rw [if_neg hr] at h
          have h2 := ih ((stm + c.samples_tx) % U64MOD) (i + 1) m ts
            (Nat.mod_lt _ (by norm_num [U64MOD])) h
          by_cases hn : c.nots
          · simpa [hn] using h2
          · rw [if_neg hn] at h2 ⊢
            rw [h2, Nat.mod_add_mod]
            congr 1
            ring
    · rw [hs] at h
      simp [sendTimes] at h

theorem sendTimes_cons_send (bufs : List (Nat × Nat)) (s t : Nat) (r : Int)
    (l : List Ev) : sendTimes (Ev.send bufs s t r :: l) = t :: sendTimes l := by
  simp [sendTimes, List.filterMap_cons, sendTime]

/-- In the combined TX+RX loop started at counter value ts0 below 2^64, the
nth send timestamp is ts0 + n blocks (mod 2^64), or the sentinel with -N. -/
theorem txrxLoop_sendTimes_get (c : Cfg) (e : Env) (txBuf rxBuf : Nat) :
    ∀ fuel ts0 i n ts, ts0 < U64MOD →
      (sendTimes (txrxLoop c e txBuf rxBuf ts0 i fuel)).get? n = some ts →
      ts = if c.nots then U64MAX else (ts0 + n * c.samples_tx) % U64MOD := by
  intro fuel
  induction fuel with
  | zero =>
    intro ts0 i n ts _ h
    simp [txrxLoop, sendTimes] at h
  | succ f ih =>
    intro ts0 i n ts hlt h
    unfold txrxLoop at h
    rcases hs : e.s_stop i with _ | _
    · rw [hs] at h
      simp only [Bool.false_eq_true, if_false] at h
      rw [sendTimes_cons_send] at h
      cases n with
      | zero =>
        simp only [List.get?] at h
        cases h
        by_cases hn : c.nots
        · simp [hn]
        · simp [hn, Nat.mod_eq_of_lt hlt]
      | succ m =>
        simp only [List.get?] at h
        by_cases hr : e.send_res i ≠ 0
        · rw [if_pos hr] at h
          simp [sendTimes] at h
        · rw [if_neg hr] at h
          rw [sendTimes_cons_none] at h
          · by_cases hv : e.recv_res i ≠ 0
            · rw [if_pos hv] at h
              simp [sendTimes] at h
            · rw [if_neg hv] at h
              have h2 := ih ((ts0 + c.samples_tx) % U64MOD) (i + 1) m ts
                (Nat.mod_lt _ (by norm_num [U64MOD])) h
              by_cases hn : c.nots
              · simpa [hn] using h2
              · rw [if_neg hn] at h2 ⊢
                rw [h2, Nat.mod_add_mod]
                congr 1
                ring
          · rfl
    · rw [hs] at h
      simp [sendTimes] at h

/- The setup and teardown regions contain no send events, so the send
timestamps of a whole run are those of its transfer loop (if reached). -/

theorem sendTimes_nullChecks (c : Cfg) (e : Env) (a b : Bool) (tb rb : Nat) :
    sendTimes (nullChecks c e a b tb rb) = [] ∨
      sendTimes (nullChecks c e a b tb rb) = sendTimes (loopTrace c e tb rb) := by
  unfold nullChecks
  split
  · exact Or.inl (sendTimes_teardown a b)
  split
  · exact Or.inl (sendTimes_teardown a b)
  · right
    rw [sendTimes_append, sendTimes_stopTrace, List.append_nil]

theorem sendTimes_findsetvReg (c : Cfg) (e : Env) (a b : Bool) (tb rb : Nat) :
    sendTimes (findsetvReg c e a b tb rb) = [] ∨
      sendTimes (findsetvReg c e a b tb rb) = sendTimes (loopTrace c e tb rb) := by
  unfold findsetvReg
  split
  · exact sendTimes_nullChecks c e a b tb rb
  · rw [sendTimes_cons_none]
    · split
      · exact Or.inl (sendTimes_teardown a b)
      · exact sendTimes_nullChecks c e a b tb rb
    · rfl

theorem sendTimes_antReg (c : Cfg) (e : Env) (a b : Bool) (tb rb : Nat) :
    sendTimes (antReg c e a b tb rb) = [] ∨
      sendTimes (antReg c e a b tb rb) = sendTimes (loopTrace c e tb rb) := by
  unfold antReg
  rw [sendTimes_cons_none]
  · exact sendTimes_findsetvReg c e a b tb rb
  · rfl

theorem sendTimes_syncModeReg (c : Cfg) (e : Env) (a b : Bool) (tb rb : Nat) :
    sendTimes (syncModeReg c e a b tb rb) = [] ∨
      sendTimes (syncModeReg c e a b tb rb) = sendTimes (loopTrace c e tb rb) := by
  unfold syncModeReg
  rw [sendTimes_cons_none]
  · split
    · exact Or.inl (sendTimes_teardown a b)
    · exact sendTimes_antReg c e a b tb rb
  · rfl

theorem sendTimes_startTxReg (c : Cfg) (e : Env) (a b : Bool) (tb rb : Nat) :
    sendTimes (startTxReg c e a b tb rb) = [] ∨
      sendTimes (startTxReg c e a b tb rb) = sendTimes (loopTrace c e tb rb) := by
  unfold startTxReg
  split
  · split
    · rw [sendTimes_cons_none]
      · split
        · exact Or.inl (sendTimes_teardown a b)
        · exact sendTimes_syncModeReg c e a b tb rb
      · rfl
    · split
      · exact Or.inl (sendTimes_teardown a b)
      · exact sendTimes_syncModeReg c e a b tb rb
  · exact sendTimes_syncModeReg c e a b tb rb

theorem sendTimes_startRxReg (c : Cfg) (e : Env) (a b : Bool) (tb rb : Nat) :
    sendTimes (startRxReg c e a b tb rb) = [] ∨
      sendTimes (startRxReg c e a b tb rb) = sendTimes (loopTrace c e tb rb) := by
  unfold startRxReg
  split
  · split
    · rw [sendTimes_cons_none]
      · split
        · exact Or.inl (sendTimes_teardown a b)
        · exact sendTimes_startTxReg c e a b tb rb
      · rfl
    · split
      · exact Or.inl (sendTimes_teardown a b)
      · exact sendTimes_startTxReg c e a b tb rb
  · exact sendTimes_startTxReg c e a b tb rb

theorem sendTimes_syncOffReg (c : Cfg) (e : Env) (a b : Bool) (tb rb : Nat) :
    sendTimes (syncOffReg c e a b tb rb) = [] ∨
      sendTimes (syncOffReg c e a b tb rb) = sendTimes (loopTrace c e tb rb) := by
  unfold syncOffReg
  rw [sendTimes_cons_none]
  · split
    · exact Or.inl (sendTimes_teardown a b)
    · exact sendTimes_startRxReg c e a b tb rb
  · rfl

theorem sendTimes_calReg (c : Cfg) (e : Env) (a b : Bool) (tb rb : Nat) :
    sendTimes (calReg c e a b tb rb) = [] ∨
      sendTimes (calReg c e a b tb rb) = sendTimes (loopTrace c e tb rb) := by
  unfold calReg
  have hpre : sendTimes (if c.cal_freq > 1000000 then
      [Ev.dmeSet "/dm/sync/cal/freq" e.cal_res] else []) = [] := by
    split <;> rfl
  rw [sendTimes_append, hpre, List.nil_append]
  exact sendTimes_syncOffReg c e a b tb rb

theorem sendTimes_rxThreadsReg (c : Cfg) (e : Env) (a b : Bool) (tb rb : Nat) :
    sendTimes (rxThreadsReg c e a b tb rb) = [] ∨
      sendTimes (rxThreadsReg c e a b tb rb) = sendTimes (loopTrace c e tb rb) := by
  unfold rxThreadsReg
  split
  · split
    · split
      · exact sendTimes_calReg c e a b tb rb
      · exact Or.inl (sendTimes_teardown false false)
    · exact Or.inl rfl
  · exact sendTimes_calReg c e a b tb rb

theorem sendTimes_txThreadsReg (c : Cfg) (e : Env) (a b : Bool) (tb rb : Nat) :
    sendTimes (txThreadsReg c e a b tb rb) = [] ∨
      sendTimes (txThreadsReg c e a b tb rb) = sendTimes (loopTrace c e tb rb) := by
  unfold txThreadsReg
  split
  · split
    · exact sendTimes_rxThreadsReg c e a b tb rb
    · exact Or.inl (sendTimes_teardown false false)
  · exact sendTimes_rxThreadsReg c e a b tb rb

theorem sendTimes_maxChsReg (c : Cfg) (e : Env) (a b : Bool) (tb rb : Nat) :
    sendTimes (maxChsReg c e a b tb rb) = [] ∨
      sendTimes (maxChsReg c e a b tb rb) = sendTimes (loopTrace c e tb rb) := by
  unfold maxChsReg
  split
  · exact Or.inl (sendTimes_teardown false false)
  · exact sendTimes_txThreadsReg c e a b tb rb

theorem sendTimes_txOpenReg (c : Cfg) (e : Env) (b : Bool) (rb : Nat) :
    sendTimes (txOpenReg c e b rb) = [] ∨
      ∃ tb, sendTimes (txOpenReg c e b rb) = sendTimes (loopTrace c e tb rb) := by
  unfold txOpenReg
  split
  · rw [sendTimes_cons_none]
    · split
      · split
        · exact Or.inl (sendTimes_teardown false false)
        · rcases sendTimes_maxChsReg c e false b 0 rb with h | h
          · exact Or.inl h
          · exact Or.inr ⟨0, h⟩
      · rw [sendTimes_cons_none]
        · split
          · split
            · exact Or.inl (sendTimes_teardown false false)
            · rcases sendTimes_maxChsReg c e true b 0 rb with h | h
              · exact Or.inl h
              · exact Or.inr ⟨0, h⟩
          · rcases sendTimes_maxChsReg c e true b e.tx_channels rb with h | h
            · exact Or.inl h
            · exact Or.inr ⟨e.tx_channels, h⟩
        · rfl
    · rfl
  · rcases sendTimes_maxChsReg c e false b 0 rb with h | h
    · exact Or.inl h
    · exact Or.inr ⟨0, h⟩

theorem sendTimes_rxOpenReg (c : Cfg) (e : Env) :
    sendTimes (rxOpenReg c e) = [] ∨
      ∃ tb rb, sendTimes (rxOpenReg c e) = sendTimes (loopTrace c e tb rb) := by
  unfold rxOpenReg
  split
  · rw [sendTimes_cons_none]
    · split
      · split
        · exact Or.inl (sendTimes_teardown false false)
        · rcases sendTimes_txOpenReg c e false 0 with h | ⟨tb, h⟩
          · exact Or.inl h
          · exact Or.inr ⟨tb, 0, h⟩
      · rw [sendTimes_cons_none]
        · split
          · split
            · exact Or.inl (sendTimes_teardown false false)
            · rcases sendTimes_txOpenReg c e true 0 with h | ⟨tb, h⟩
              · exact Or.inl h
              · exact Or.inr ⟨tb, 0, h⟩
          · rcases sendTimes_txOpenReg c e true e.rx_channels with h | ⟨tb, h⟩
            · exact Or.inl h
            · exact Or.inr ⟨tb, e.rx_channels, h⟩
        · rfl
    · rfl
  · rcases sendTimes_txOpenReg c e false 0 with h | ⟨tb, h⟩
    · exact Or.inl h
    · exact Or.inr ⟨tb, 0, h⟩

theorem sendTimes_main_trace (c : Cfg) (e : Env) :
    sendTimes (main_trace c e) = [] ∨
      ∃ tb rb, sendTimes (main_trace c e) = sendTimes (loopTrace c e tb rb) := by
  unfold main_trace afterDevReg
  split
  · exact Or.inl rfl
  split
  · exact Or.inl rfl
  split
  · exact Or.inl rfl
  · have hpre : sendTimes (if c.refclk then
        [Ev.dmeSet "/dm/sdr/refclk/path" e.refclk_res] else []) = [] := by
      split <;> rfl
    rw [sendTimes_append, hpre, List.nil_append]
    split
    · exact sendTimes_rxOpenReg c e
    · rw [sendTimes_cons_none]
      · rw [sendTimes_cons_none]
        · split
          · exact Or.inl (sendTimes_teardown false false)
          · rw [sendTimes_cons_none]
            · exact sendTimes_rxOpenReg c e
            · rfl
        · rfl
      · rfl

/-- C1: in every run, the timestamp passed to the Nth usdr_dms_send (N from
0) is start_tx_delay + N * samples_tx = samples_tx + N * samples_tx, the
base delay being one full TX block of samples; with -N (nots) every send
instead passes the UINT64_MAX sentinel, regardless of N. The bounds reflect
that samples_tx and the loop counter are C unsigned (32-bit) values. -/
theorem c1_tx_send_timestamps (c : Cfg) (e : Env) (n ts : Nat)
    (hs : c.samples_tx < 2 ^ 32) (hn : n < 2 ^ 32)
    (hget : (sendTimes (main_trace c e)).get? n = some ts) :
    ts = if c.nots then U64MAX else c.samples_tx + n * c.samples_tx := by
  have hbound : c.samples_tx + n * c.samples_tx < U64MOD := by
    calc c.samples_tx + n * c.samples_tx
        ≤ 4294967295 + 4294967295 * 4294967295 := by
          have h1 : c.samples_tx ≤ 4294967295 := by omega
          have h2 : n ≤ 4294967295 := by omega
          exact Nat.add_le_add h1 (Nat.mul_le_mul h2 h1)
      _ < U64MOD := by norm_num [U64MOD]
  have hlt : start_tx_delay c < U64MOD := by
    have : (2 : Nat) ^ 32 < U64MOD := by norm_num [U64MOD]
    exact lt_trans hs this
  rcases sendTimes_main_trace c e with h | ⟨tb, rb, h⟩
  · rw [h] at hget
    simp at hget
  · rw [h] at hget
    unfold loopTrace at hget
    split at hget
    · have h2 := txOnlyLoop_sendTimes_get c e tb (effCount c e)
        (start_tx_delay c) 0 n ts hlt hget
      by_cases hnots : c.nots
      · simpa [hnots] using h2
      · rw [if_neg hnots] at h2 ⊢
        rw [h2, start_tx_delay, Nat.mod_eq_of_lt hbound]
    · split at hget
      · rw [sendTimes_rxOnlyLoop] at hget
        simp at hget
      · have h2 := txrxLoop_sendTimes_get c e tb rb (effCount c e)
          (start_tx_delay c) 0 n ts hlt hget
        by_cases hnots : c.nots
        · simpa [hnots] using h2
        · rw [if_neg hnots] at h2 ⊢
          rw [h2, start_tx_delay, Nat.mod_eq_of_lt hbound]

/-- A TX-only configuration: 4096-sample blocks, 3 blocks, timestamps on. -/
def cfgTxOnly : Cfg :=
  ⟨true, false, false, true, false, false, false, false, false, 4096, 4096, 3,
   1, 0, "ci16", "all"⟩

/-- The same TX-only configuration with -N (no TX timestamps). -/
def cfgTxOnlyNoTs : Cfg :=
  ⟨true, false, true, true, false, false, false, false, false, 4096, 4096, 3,
   1, 0, "ci16", "all"⟩

/-- An environment in which every external call succeeds, every ring wait
returns slot 0, the stop flag is never raised and each stream reports one
channel. -/
def envAllOk : Env :=
  ⟨true, true, 0, 0, 0, 0, 0, 0, 0, 0, 1, 0, 0, 1, fun _ => true, fun _ => 0,
   fun _ => 0, 0, 0, 0, 0, 0, 0, 0, 0, fun _ => false, fun _ _ => 0,
   fun _ _ => 0, fun _ => 0, fun _ => 0, 0, 0⟩

/-- C1 witness: in the 4096-sample TX-only run the send with index 1 carries
timestamp 4096 + 1 * 4096 = 8192, and with -N the first send carries the
UINT64_MAX sentinel. -/
theorem c1_tx_send_timestamps_witness :
    ((sendTimes (main_trace cfgTxOnly envAllOk)).get? 1 = some 8192 ∧
      (8192 : Nat) = (if cfgTxOnly.nots then U64MAX
        else cfgTxOnly.samples_tx + 1 * cfgTxOnly.samples_tx)) ∧
    ((sendTimes (main_trace cfgTxOnlyNoTs envAllOk)).get? 0 = some U64MAX ∧
      U64MAX = (if cfgTxOnlyNoTs.nots then U64MAX
        else cfgTxOnlyNoTs.samples_tx + 0 * cfgTxOnlyNoTs.samples_tx)) :=
  ⟨⟨by decide, c1_tx_send_timestamps cfgTxOnly envAllOk 1 8192 (by decide)
      (by decide) (by decide)⟩,
   ⟨by decide, c1_tx_send_timestamps cfgTxOnlyNoTs envAllOk 0 U64MAX (by decide)
      (by decide) (by decide)⟩⟩

/- ===== Section 5: synchronization order (claim C2) ===== -/

/-- Phase automaton for the synchronization protocol: state 0 before the
first timer_op call, state 1 between the two calls, state 2 after the
second, state 9 rejecting. In state 0 a sync must carry mode "off" and no
START may occur; in state 1 the next sync must carry the requested mode; in
state 2 no further sync and no further START may occur. -/
def phaseStep (mode : String) : Nat → Ev → Nat
  | 0, Ev.sync m _ => if m = "off" then 1 else 9
  | 0, Ev.start _ _ _ => 9
  | 0, _ => 0
  | 1, Ev.sync m _ => if m = mode then 2 else 9
  | 1, _ => 1
  | 2, Ev.sync _ _ => 9
  | 2, Ev.start _ _ _ => 9
  | 2, _ => 2
  | s, _ => s

/-- The phase reached by a trace, starting before the first sync. -/
def phaseRun (mode : String) (l : List Ev) : Nat := l.foldl (phaseStep mode) 0

theorem phaseRun_teardown (mode : String) (p : Nat) (hp : p = 0 ∨ p = 1 ∨ p = 2)
    (a b : Bool) : List.foldl (phaseStep mode) p (teardownEv a b) = p := by
  rcases hp with h | h | h <;> subst h <;> cases a <;> cases b <;> rfl

theorem phaseRun_stopTrace (mode : String) (p : Nat) (hp : p = 0 ∨ p = 1 ∨ p = 2)
    (c : Cfg) (e : Env) : List.foldl (phaseStep mode) p (stopTrace c e) = p := by
  have hstep : ∀ s r, phaseStep mode p (Ev.stopS s r) = p := by
    rcases hp with h | h | h <;> subst h <;> intro s r <;> rfl
  unfold stopTrace
  rw [List.foldl_append]
  have hpre : List.foldl (phaseStep mode) p
      (if c.dorx then
        Ev.stopS StrId.rx e.rx_stop_res ::
          (if e.rx_stop_res ≠ 0 then []
           else if c.dotx then [Ev.stopS StrId.tx e.tx_stop_res] else [])
       else if c.dotx then [Ev.stopS StrId.tx e.tx_stop_res] else []) = p := by
    split
    · rw [List.foldl_cons, hstep]
      split
      · rfl
      · split
        · rw [List.foldl_cons, hstep]
          rfl
        · rfl
    · split
      · rw [List.foldl_cons, hstep]
        rfl
      · rfl
  rw [hpre]
  exact phaseRun_teardown mode p hp _ _

theorem phaseRun_txOnlyLoop (mode : String) (p : Nat) (hp : p = 0 ∨ p = 1 ∨ p = 2)
    (c : Cfg) (e : Env) (tb : Nat) : ∀ fuel stm i,
      List.foldl (phaseStep mode) p (txOnlyLoop c e tb stm i fuel) = p := by
  have hsend : ∀ bufs s t r, phaseStep mode p (Ev.send bufs s t r) = p := by
    rcases hp with h | h | h <;> subst h <;> intro bufs s t r <;> rfl
  intro fuel
  induction fuel with
  | zero => intro stm i; rfl
  | succ f ih =>
    intro stm i
    unfold txOnlyLoop
    split
    · rfl
    · rw [List.foldl_cons, hsend]
      split
      · rfl
      · exact ih _ _

theorem phaseRun_rxOnlyLoop (mode : String) (p : Nat) (hp : p = 0 ∨ p = 1 ∨ p = 2)
    (c : Cfg) (e : Env) (rb : Nat) : ∀ fuel i,
      List.foldl (phaseStep mode) p (rxOnlyLoop c e rb i fuel) = p := by
  have hrecv : ∀ bufs r, phaseStep mode p (Ev.recv bufs r) = p := by
    rcases hp with h | h | h <;> subst h <;> intro bufs r <;> rfl
  have hdme : ∀ pa r, phaseStep mode p (Ev.dmeSet pa r) = p := by
    rcases hp with h | h | h <;> subst h <;> intro pa r <;> rfl
  intro fuel
  induction fuel with
  | zero => intro i; rfl
  | succ f ih =>
    intro i
    unfold rxOnlyLoop
    split
    · rfl
    · rw [List.foldl_cons, hrecv]
      split
      · rfl
      · rw [List.foldl_append]
        split
        · rw [List.foldl_cons, hdme]
          exact ih _
        · exact ih _

theorem phaseRun_txrxLoop (mode : String) (p : Nat) (hp : p = 0 ∨ p = 1 ∨ p = 2)
    (c : Cfg) (e : Env) (tb rb : Nat) : ∀ fuel ts0 i,
      List.foldl (phaseStep mode) p (txrxLoop c e tb rb ts0 i fuel) = p := by
  have hsend : ∀ bufs s t r, phaseStep mode p (Ev.send bufs s t r) = p := by
    rcases hp with h | h | h <;> subst h <;> intro bufs s t r <;> rfl
  have hrecv : ∀ bufs r, phaseStep mode p (Ev.recv bufs r) = p := by
    rcases hp with h | h | h <;> subst h <;> intro bufs r <;> rfl
  intro fuel
  induction fuel with
  | zero => intro ts0 i; rfl
  | succ f ih =>
    intro ts0 i
    unfold txrxLoop
    split
    · rfl
    · rw [List.foldl_cons, hsend]
      split
      · rfl
      · rw [List.foldl_cons, hrecv]
        split
        · rfl
        · exact ih _ _

theorem phaseRun_loopTrace (mode : String) (p : Nat) (hp : p = 0 ∨ p = 1 ∨ p = 2)
    (c : Cfg) (e : Env) (tb rb : Nat) :
    List.foldl (phaseStep mode) p (loopTrace c e tb rb) = p := by
  unfold loopTrace
  split
  · exact phaseRun_txOnlyLoop mode p hp c e tb _ _ _
  split
  · exact phaseRun_rxOnlyLoop mode p hp c e rb _ _
  · exact phaseRun_txrxLoop mode p hp c e tb rb _ _ _

theorem phaseRun_nullChecks (mode : String) (p : Nat) (hp : p = 0 ∨ p = 1 ∨ p = 2)
    (c : Cfg) (e : Env) (a b : Bool) (tb rb : Nat) :
    List.foldl (phaseStep mode) p (nullChecks c e a b tb rb) = p := by
  unfold nullChecks
  split
  · exact phaseRun_teardown mode p hp a b
  split
  · exact phaseRun_teardown mode p hp a b
  · rw [List.foldl_append, phaseRun_loopTrace mode p hp]
    exact phaseRun_stopTrace mode p hp c e

theorem phaseRun_findsetvReg (mode : String) (p : Nat) (hp : p = 0 ∨ p = 1 ∨ p = 2)
    (c : Cfg) (e : Env) (a b : Bool) (tb rb : Nat) :
    List.foldl (phaseStep mode) p (findsetvReg c e a b tb rb) = p := by
  have hfs : ∀ r, phaseStep mode p (Ev.findsetv r) = p := by
    rcases hp with h | h | h <;> subst h <;> intro r <;> rfl
  unfold findsetvReg
  split
  · exact phaseRun_nullChecks mode p hp c e a b tb rb
  · rw [List.foldl_cons, hfs]
    split
    · exact phaseRun_teardown mode p hp a b
    · exact phaseRun_nullChecks mode p hp c e a b tb rb

theorem phaseRun_antReg (mode : String) (p : Nat) (hp : p = 0 ∨ p = 1 ∨ p = 2)
    (c : Cfg) (e : Env) (a b : Bool) (tb rb : Nat) :
    List.foldl (phaseStep mode) p (antReg c e a b tb rb) = p := by
  have hdme : ∀ pa r, phaseStep mode p (Ev.dmeSet pa r) = p := by
    rcases hp with h | h | h <;> subst h <;> intro pa r <;> rfl
  unfold antReg
  rw [List.foldl_cons, hdme]
  exact phaseRun_findsetvReg mode p hp c e a b tb rb

theorem phase_syncModeReg (c : Cfg) (e : Env) (a b : Bool) (tb rb : Nat) :
    List.foldl (phaseStep c.synctype) 1 (syncModeReg c e a b tb rb) = 2 := by
  unfold syncModeReg
  rw [List.foldl_cons]
  have h1 : phaseStep c.synctype 1 (Ev.sync c.synctype e.sync_mode_res) = 2 := by
    simp [phaseStep]
  rw [h1]
  split
  · exact phaseRun_teardown _ 2 (Or.inr (Or.inr rfl)) a b
  · exact phaseRun_antReg _ 2 (Or.inr (Or.inr rfl)) c e a b tb rb

theorem phase_startTxReg (c : Cfg) (e : Env) (a b : Bool) (tb rb : Nat) :
    List.foldl (phaseStep c.synctype) 1 (startTxReg c e a b tb rb) = 1 ∨
      List.foldl (phaseStep c.synctype) 1 (startTxReg c e a b tb rb) = 2 := by
  unfold startTxReg
  split
  · split
    · rw [List.foldl_cons]
      have h1 : phaseStep c.synctype 1 (Ev.start StrId.tx 0 e.tx_start_res) = 1 := rfl
      rw [h1]
      split
      · exact Or.inl (phaseRun_teardown _ 1 (Or.inr (Or.inl rfl)) a b)
      · exact Or.inr (phase_syncModeReg c e a b tb rb)
    · split
      · exact Or.inl (phaseRun_teardown _ 1 (Or.inr (Or.inl rfl)) a b)
      · exact Or.inr (phase_syncModeReg c e a b tb rb)
  · exact Or.inr (phase_syncModeReg c e a b tb rb)

theorem phase_startRxReg (c : Cfg) (e : Env) (a b : Bool) (tb rb : Nat) :
    List.foldl (phaseStep c.synctype) 1 (startRxReg c e a b tb rb) = 1 ∨
      List.foldl (phaseStep c.synctype) 1 (startRxReg c e a b tb rb) = 2 := by
  unfold startRxReg
  split
  · split
    · rw [List.foldl_cons]
      have h1 : phaseStep c.synctype 1 (Ev.start StrId.rx 0 e.rx_start_res) = 1 := rfl
      rw [h1]
      split
      · exact Or.inl (phaseRun_teardown _ 1 (Or.inr (Or.inl rfl)) a b)
      · exact phase_startTxReg c e a b tb rb
    · split
      · exact Or.inl (phaseRun_teardown _ 1 (Or.inr (Or.inl rfl)) a b)
      · exact phase_startTxReg c e a b tb rb
  · exact phase_startTxReg c e a b tb rb

theorem phase_syncOffReg (c : Cfg) (e : Env) (a b : Bool) (tb rb : Nat) :
    List.foldl (phaseStep c.synctype) 0 (syncOffReg c e a b tb rb) = 1 ∨
      List.foldl (phaseStep c.synctype) 0 (syncOffReg c e a b tb rb) = 2 := by
  unfold syncOffReg
  rw [List.foldl_cons]
  have h1 : phaseStep c.synctype 0 (Ev.sync "off" e.sync_off_res) = 1 := by
    simp [phaseStep]
  rw [h1]
  split
  · exact Or.inl (phaseRun_teardown _ 1 (Or.inr (Or.inl rfl)) a b)
  · exact phase_startRxReg c e a b tb rb

theorem phase_calReg (c : Cfg) (e : Env) (a b : Bool) (tb rb : Nat) :
    List.foldl (phaseStep c.synctype) 0 (calReg c e a b tb rb) = 1 ∨
      List.foldl (phaseStep c.synctype) 0 (calReg c e a b tb rb) = 2 := by
  unfold calReg
  rw [List.foldl_append]
  have hpre : List.foldl (phaseStep c.synctype) 0
      (if c.cal_freq > 1000000 then [Ev.dmeSet "/dm/sync/cal/freq" e.cal_res]
       else []) = 0 := by
    split <;> rfl
  rw [hpre]
  exact phase_syncOffReg c e a b tb rb

theorem phase_rxThreadsReg (c : Cfg) (e : Env) (a b : Bool) (tb rb : Nat) :
    List.foldl (phaseStep c.synctype) 0 (rxThreadsReg c e a b tb rb) = 0 ∨
      List.foldl (phaseStep c.synctype) 0 (rxThreadsReg c e a b tb rb) = 1 ∨
      List.foldl (phaseStep c.synctype) 0 (rxThreadsReg c e a b tb rb) = 2 := by
  unfold rxThreadsReg
  split
  · split
    · split
      · exact Or.inr (phase_calReg c e a b tb rb)
      · exact Or.inl (phaseRun_teardown _ 0 (Or.inl rfl) false false)
    · exact Or.inl rfl
  · exact Or.inr (phase_calReg c e a b tb rb)

theorem phase_txThreadsReg (c : Cfg) (e : Env) (a b : Bool) (tb rb : Nat) :
    List.foldl (phaseStep c.synctype) 0 (txThreadsReg c e a b tb rb) = 0 ∨
      List.foldl (phaseStep c.synctype) 0 (txThreadsReg c e a b tb rb) = 1 ∨
      List.foldl (phaseStep c.synctype) 0 (txThreadsReg c e a b tb rb) = 2 := by
  unfold txThreadsReg
  split
  · split
    · exact phase_rxThreadsReg c e a b tb rb
    · exact Or.inl (phaseRun_teardown _ 0 (Or.inl rfl) false false)
  · exact phase_rxThreadsReg c e a b tb rb

theorem phase_maxChsReg (c : Cfg) (e : Env) (a b : Bool) (tb rb : Nat) :
    List.foldl (phaseStep c.synctype) 0 (maxChsReg c e a b tb rb) = 0 ∨
      List.foldl (phaseStep c.synctype) 0 (maxChsReg c e a b tb rb) = 1 ∨
      List.foldl (phaseStep c.synctype) 0 (maxChsReg c e a b tb rb) = 2 := by
  unfold maxChsReg
  split
  · exact Or.inl (phaseRun_teardown _ 0 (Or.inl rfl) false false)
  · exact phase_txThreadsReg c e a b tb rb

theorem phase_txOpenReg (c : Cfg) (e : Env) (b : Bool) (rb : Nat) :
    List.foldl (phaseStep c.synctype) 0 (txOpenReg c e b rb) = 0 ∨
      List.foldl (phaseStep c.synctype) 0 (txOpenReg c e b rb) = 1 ∨
      List.foldl (phaseStep c.synctype) 0 (txOpenReg c e b rb) = 2 := by
  unfold txOpenReg
  split
  · rw [List.foldl_cons]
    have h1 : phaseStep c.synctype 0 (Ev.txCreate e.tx_create_res) = 0 := rfl
    rw [h1]
    split
    · split
      · exact Or.inl (phaseRun_teardown _ 0 (Or.inl rfl) false false)
      · exact phase_maxChsReg c e false b 0 rb
    · rw [List.foldl_cons]
      have h2 : phaseStep c.synctype 0 (Ev.txInfo e.tx_info_res) = 0 := rfl
      rw [h2]
      split
      · split
        · exact Or.inl (phaseRun_teardown _ 0 (Or.inl rfl) false false)
        · exact phase_maxChsReg c e true b 0 rb
      · exact phase_maxChsReg c e true b e.tx_channels rb
  · exact phase_maxChsReg c e false b 0 rb

theorem phase_rxOpenReg (c : Cfg) (e : Env) :
    List.foldl (phaseStep c.synctype) 0 (rxOpenReg c e) = 0 ∨
      List.foldl (phaseStep c.synctype) 0 (rxOpenReg c e) = 1 ∨
      List.foldl (phaseStep c.synctype) 0 (rxOpenReg c e) = 2 := by
  unfold rxOpenReg
  split
  · rw [List.foldl_cons]
    have h1 : phaseStep c.synctype 0 (Ev.rxCreate e.rx_create_res) = 0 := rfl
    rw [h1]
    split
    · split
      · exact Or.inl (phaseRun_teardown _ 0 (Or.inl rfl) false false)
      · exact phase_txOpenReg c e false 0
    · rw [List.foldl_cons]
      have h2 : phaseStep c.synctype 0 (Ev.rxInfo e.rx_info_res) = 0 := rfl
      rw [h2]
      split
      · split
        · exact Or.inl (phaseRun_teardown _ 0 (Or.inl rfl) false false)
        · exact phase_txOpenReg c e true 0
      · exact phase_txOpenReg c e true e.rx_channels
  · exact phase_txOpenReg c e false 0

theorem phase_main_trace (c : Cfg) (e : Env) :
    phaseRun c.synctype (main_trace c e) = 0 ∨
      phaseRun c.synctype (main_trace c e) = 1 ∨
      phaseRun c.synctype (main_trace c e) = 2 := by
  unfold phaseRun main_trace afterDevReg
  split
  · exact Or.inl rfl
  split
  · exact Or.inl rfl
  split
  · exact Or.inl rfl
  · rw [List.foldl_append]
    have hpre : List.foldl (phaseStep c.synctype) 0
        (if c.refclk then [Ev.dmeSet "/dm/sdr/refclk/path" e.refclk_res]
         else []) = 0 := by
      split <;> rfl
    rw [hpre]
    split
    · exact phase_rxOpenReg c e
    · rw [List.foldl_cons, List.foldl_cons]
      have h1 : phaseStep c.synctype 0 (Ev.dmeSet "/dm/power/en" e.power_res) = 0 := rfl
      have h2 : phaseStep c.synctype 0 (Ev.rateSet e.rate_res) = 0 := rfl
      rw [h1, h2]
      split
      · exact Or.inl (phaseRun_teardown _ 0 (Or.inl rfl) false false)
      · rw [List.foldl_cons]
        have h3 : phaseStep c.synctype 0
            (Ev.dmeSet "/debug/hw/lms7002m/0/rxlml" e.rxlml_res) = 0 := rfl
        rw [h3]
        exact phase_rxOpenReg c e

/-- Whether an event is one of the two usdr_dms_sync (timer_op) calls. -/
def isSyncEv : Ev → Bool
  | Ev.sync _ _ => true
  | _ => false

/-- Number of usdr_dms_sync calls recorded in a trace. -/
def syncCount (l : List Ev) : Nat := (l.filter isSyncEv).length

theorem syncCount_cons_nonsync (ev : Ev) (l : List Ev) (h : isSyncEv ev = false) :
    syncCount (ev :: l) = syncCount l := by
  simp [syncCount, List.filter_cons, h]

theorem syncCount_cons_sync (m : String) (r : Int) (l : List Ev) :
    syncCount (Ev.sync m r :: l) = syncCount l + 1 := by
  simp [syncCount, List.filter_cons, isSyncEv]

theorem syncCount_append (l1 l2 : List Ev) :
    syncCount (l1 ++ l2) = syncCount l1 + syncCount l2 := by
  simp [syncCount]

theorem syncCount_teardown (a b : Bool) : syncCount (teardownEv a b) = 0 := by
  cases a <;> cases b <;> rfl

theorem startedTx_startTxReg (c : Cfg) (e : Env) (a b : Bool) (tb rb : Nat)
    (hstop : c.stop_on_error = true) (hdo : c.dotx = true)
    (hc : 1 ≤ syncCount (startTxReg c e a b tb rb)) :
    Ev.start StrId.tx 0 e.tx_start_res ∈ startTxReg c e a b tb rb := by
  unfold startTxReg at hc ⊢
  rw [if_pos hdo] at hc ⊢
  cases a with
  | true =>
    rw [if_pos rfl] at hc ⊢
    exact List.mem_cons_self _ _
  | false =>
    rw [if_neg (by simp)] at hc ⊢
    rw [if_pos hstop] at hc
    rw [syncCount_teardown] at hc
    exact absurd hc (by omega)

theorem startedRx_startRxReg (c : Cfg) (e : Env) (a b : Bool) (tb rb : Nat)
    (hstop : c.stop_on_error = true) (hdo : c.dorx = true)
    (hc : 1 ≤ syncCount (startRxReg c e a b tb rb)) :
    Ev.start StrId.rx 0 e.rx_start_res ∈ startRxReg c e a b tb rb := by
  unfold startRxReg at hc ⊢
  rw [if_pos hdo] at hc ⊢
  cases b with
  | true =>
    rw [if_pos rfl] at hc ⊢
    exact List.mem_cons_self _ _
  | false =>
    rw [if_neg (by simp)] at hc ⊢
    rw [if_pos hstop] at hc
    rw [syncCount_teardown] at hc
    exact absurd hc (by omega)

theorem startedTx_startRxReg (c : Cfg) (e : Env) (a b : Bool) (tb rb : Nat)
    (hstop : c.stop_on_error = true) (hdo : c.dotx = true)
    (hc : 1 ≤ syncCount (startRxReg c e a b tb rb)) :
    Ev.start StrId.tx 0 e.tx_start_res ∈ startRxReg c e a b tb rb := by
  unfold startRxReg at hc ⊢
  by_cases hrx : c.dorx = true
  · rw [if_pos hrx] at hc ⊢
    cases b with
    | true =>
      rw [if_pos rfl] at hc ⊢
      rw [syncCount_cons_nonsync _ _ (by rfl)] at hc
      by_cases hcond : (e.rx_start_res ≠ 0 ∧ c.stop_on_error = true)
      · rw [if_pos hcond] at hc
        rw [syncCount_teardown] at hc
        exact absurd hc (by omega)
      · rw [if_neg hcond] at hc ⊢
        exact List.mem_cons_of_mem _ (startedTx_startTxReg c e a true tb rb hstop hdo hc)
    | false =>
      rw [if_neg (by simp)] at hc ⊢
      rw [if_pos hstop] at hc
      rw [syncCount_teardown] at hc
      exact absurd hc (by omega)
  · rw [if_neg hrx] at hc ⊢
    exact startedTx_startTxReg c e a b tb rb hstop hdo hc

theorem started_syncOffReg (c : Cfg) (e : Env) (a b : Bool) (tb rb : Nat)
    (hstop : c.stop_on_error = true)
    (hc : 2 ≤ syncCount (syncOffReg c e a b tb rb)) :
    (c.dorx = true → Ev.start StrId.rx 0 e.rx_start_res ∈ syncOffReg c e a b tb rb) ∧
    (c.dotx = true → Ev.start StrId.tx 0 e.tx_start_res ∈ syncOffReg c e a b tb rb) := by
  unfold syncOffReg at hc ⊢
  rw [syncCount_cons_sync] at hc
  by_cases hcond : (e.sync_off_res ≠ 0 ∧ c.stop_on_error = true)
  · rw [if_pos hcond] at hc
    rw [syncCount_teardown] at hc
    exact absurd hc (by omega)
  · rw [if_neg hcond] at hc ⊢
    have hc1 : 1 ≤ syncCount (startRxReg c e a b tb rb) := by omega
    exact ⟨fun hdo =>
        List.mem_cons_of_mem _ (startedRx_startRxReg c e a b tb rb hstop hdo hc1),
      fun hdo =>
        List.mem_cons_of_mem _ (startedTx_startRxReg c e a b tb rb hstop hdo hc1)⟩

theorem started_calReg (c : Cfg) (e : Env) (a b : Bool) (tb rb : Nat)
    (hstop : c.stop_on_error = true)
    (hc : 2 ≤ syncCount (calReg c e a b tb rb)) :
    (c.dorx = true → Ev.start StrId.rx 0 e.rx_start_res ∈ calReg c e a b tb rb) ∧
    (c.dotx = true → Ev.start StrId.tx 0 e.tx_start_res ∈ calReg c e a b tb rb) := by
  unfold calReg at hc ⊢
  rw [syncCount_append] at hc
  have hpre0 : syncCount (if c.cal_freq > 1000000 then
      [Ev.dmeSet "/dm/sync/cal/freq" e.cal_res] else []) = 0 := by
    split <;> rfl
  rw [hpre0] at hc
  have h := started_syncOffReg c e a b tb rb hstop (by omega)
  exact ⟨fun hdo => List.mem_append_right _ (h.1 hdo),
    fun hdo => List.mem_append_right _ (h.2 hdo)⟩

theorem started_rxThreadsReg (c : Cfg) (e : Env) (a b : Bool) (tb rb : Nat)
    (hstop : c.stop_on_error = true)
    (hc : 2 ≤ syncCount (rxThreadsReg c e a b tb rb)) :
    (c.dorx = true → Ev.start StrId.rx 0 e.rx_start_res ∈ rxThreadsReg c e a b tb rb) ∧
    (c.dotx = true → Ev.start StrId.tx 0 e.tx_start_res ∈ rxThreadsReg c e a b tb rb) := by
  unfold rxThreadsReg at hc ⊢
  by_cases h1 : c.dorx = true
  · rw [if_pos h1] at hc ⊢
    by_cases h2 : rxFilesOkB e rb = true
    · rw [if_pos h2] at hc ⊢
      by_cases h3 : threadsOkB e.rx_thread_res rb = true
      · rw [if_pos h3] at hc ⊢
        exact started_calReg c e a b tb rb hstop hc
      · rw [if_neg h3] at hc
        rw [syncCount_teardown] at hc
        exact absurd hc (by omega)
    · rw [if_neg h2] at hc
      exact absurd hc (by decide)
  · rw [if_neg h1] at hc ⊢
    exact started_calReg c e a b tb rb hstop hc

theorem started_txThreadsReg (c : Cfg) (e : Env) (a b : Bool) (tb rb : Nat)
    (hstop : c.stop_on_error = true)
    (hc : 2 ≤ syncCount (txThreadsReg c e a b tb rb)) :
    (c.dorx = true → Ev.start StrId.rx 0 e.rx_start_res ∈ txThreadsReg c e a b tb rb) ∧
    (c.dotx = true → Ev.start StrId.tx 0 e.tx_start_res ∈ txThreadsReg c e a b tb rb) := by
  unfold txThreadsReg at hc ⊢
  by_cases h1 : c.dotx = true
  · rw [if_pos h1] at hc ⊢
    by_cases h2 : threadsOkB e.tx_thread_res tb = true
    · rw [if_pos h2] at hc ⊢
      exact started_rxThreadsReg c e a b tb rb hstop hc
    · rw [if_neg h2] at hc
      rw [syncCount_teardown] at hc
      exact absurd hc (by omega)
  · rw [if_neg h1] at hc ⊢
    exact started_rxThreadsReg c e a b tb rb hstop hc

theorem started_maxChsReg (c : Cfg) (e : Env) (a b : Bool) (tb rb : Nat)
    (hstop : c.stop_on_error = true)
    (hc : 2 ≤ syncCount (maxChsReg c e a b tb rb)) :
    (c.dorx = true → Ev.start StrId.rx 0 e.rx_start_res ∈ maxChsReg c e a b tb rb) ∧
    (c.dotx = true → Ev.start StrId.tx 0 e.tx_start_res ∈ maxChsReg c e a b tb rb) := by
  unfold maxChsReg at hc ⊢
  by_cases h1 : ((rb > 32 ∨ tb > 32) ∧ c.stop_on_error = true)
  · rw [if_pos h1] at hc
    rw [syncCount_teardown] at hc
    exact absurd hc (by omega)
  · rw [if_neg h1] at hc ⊢
    exact started_txThreadsReg c e a b tb rb hstop hc

theorem started_txOpenReg (c : Cfg) (e : Env) (b : Bool) (rb : Nat)
    (hstop : c.stop_on_error = true)
    (hc : 2 ≤ syncCount (txOpenReg c e b rb)) :
    (c.dorx = true → Ev.start StrId.rx 0 e.rx_start_res ∈ txOpenReg c e b rb) ∧
    (c.dotx = true → Ev.start StrId.tx 0 e.tx_start_res ∈ txOpenReg c e b rb) := by
  unfold txOpenReg at hc ⊢
  by_cases h1 : c.dotx = true
  · rw [if_pos h1] at hc ⊢
    rw [syncCount_cons_nonsync _ _ (by rfl)] at hc
    by_cases h2 : e.tx_create_res ≠ 0
    · rw [if_pos h2] at hc
      rw [if_pos hstop] at hc
      rw [syncCount_teardown] at hc
      exact absurd hc (by omega)
    · rw [if_neg h2] at hc ⊢
      rw [syncCount_cons_nonsync _ _ (by rfl)] at hc
      by_cases h3 : e.tx_info_res ≠ 0
      · rw [if_pos h3] at hc
        rw [if_pos hstop] at hc
        rw [syncCount_teardown] at hc
        exact absurd hc (by omega)
      · rw [if_neg h3] at hc ⊢
        have h := started_maxChsReg c e true b e.tx_channels rb hstop hc
        exact ⟨fun hdo => List.mem_cons_of_mem _ (List.mem_cons_of_mem _ (h.1 hdo)),
          fun hdo => List.mem_cons_of_mem _ (List.mem_cons_of_mem _ (h.2 hdo))⟩
  · rw [if_neg h1] at hc ⊢
    exact started_maxChsReg c e false b 0 rb hstop hc

theorem started_rxOpenReg (c : Cfg) (e : Env)
    (hstop : c.stop_on_error = true)
    (hc : 2 ≤ syncCount (rxOpenReg c e)) :
    (c.dorx = true → Ev.start StrId.rx 0 e.rx_start_res ∈ rxOpenReg c e) ∧
    (c.dotx = true → Ev.start StrId.tx 0 e.tx_start_res ∈ rxOpenReg c e) := by
  unfold rxOpenReg at hc ⊢
  by_cases h1 : c.dorx = true
  · rw [if_pos h1] at hc ⊢
    rw [syncCount_cons_nonsync _ _ (by rfl)] at hc
    by_cases h2 : e.rx_create_res ≠ 0
    · rw [if_pos h2] at hc
      rw [if_pos hstop] at hc
      rw [syncCount_teardown] at hc
      exact absurd hc (by omega)
    · rw [if_neg h2] at hc ⊢
      rw [syncCount_cons_nonsync _ _ (by rfl)] at hc
      by_cases h3 : e.rx_info_res ≠ 0
      · rw [if_pos h3] at hc
        rw [if_pos hstop] at hc
        rw [syncCount_teardown] at hc
        exact absurd hc (by omega)
      · rw [if_neg h3] at hc ⊢
        have h := started_txOpenReg c e true e.rx_channels hstop hc
        exact ⟨fun hdo => List.mem_cons_of_mem _ (List.mem_cons_of_mem _ (h.1 hdo)),
          fun hdo => List.mem_cons_of_mem _ (List.mem_cons_of_mem _ (h.2 hdo))⟩
  · rw [if_neg h1] at hc ⊢
    exact started_txOpenReg c e false 0 hstop hc

theorem started_main_trace (c : Cfg) (e : Env)
    (hstop : c.stop_on_error = true)
    (hc : 2 ≤ syncCount (main_trace c e)) :
    (c.dorx = true → Ev.start StrId.rx 0 e.rx_start_res ∈ main_trace c e) ∧
    (c.dotx = true → Ev.start StrId.tx 0 e.tx_start_res ∈ main_trace c e) := by
  unfold main_trace afterDevReg at hc ⊢
  by_cases g1 : (c.dotx = true ∧ ¬e.in_file0_ok = true)
  · rw [if_pos g1] at hc
    exact absurd hc (by decide)
  rw [if_neg g1] at hc ⊢
  by_cases g2 : (c.dorx = true ∧ ¬e.out_file0_ok = true)
  · rw [if_pos g2] at hc
    exact absurd hc (by decide)
  rw [if_neg g2] at hc ⊢
  by_cases g3 : e.dev_create_res ≠ 0
  · rw [if_pos g3] at hc
    exact absurd hc (by decide)
  rw [if_neg g3] at hc ⊢
  rw [syncCount_append] at hc
  have hpre0 : syncCount (if c.refclk then
      [Ev.dmeSet "/dm/sdr/refclk/path" e.refclk_res] else []) = 0 := by
    split <;> rfl
  rw [hpre0] at hc
  by_cases g4 : c.noinit = true
  · rw [if_pos g4] at hc ⊢
    have h := started_rxOpenReg c e hstop (by omega)
    exact ⟨fun hdo => List.mem_append_right _ (h.1 hdo),
      fun hdo => List.mem_append_right _ (h.2 hdo)⟩
  · rw [if_neg g4] at hc ⊢
    rw [syncCount_cons_nonsync _ _ (by rfl), syncCount_cons_nonsync _ _ (by rfl)] at hc
    by_cases g5 : (e.rate_res ≠ 0 ∧ c.stop_on_error = true)
    · rw [if_pos g5] at hc
      rw [syncCount_teardown] at hc
      exact absurd hc (by omega)
    · rw [if_neg g5] at hc ⊢
      rw [syncCount_cons_nonsync _ _ (by rfl)] at hc
      have h := started_rxOpenReg c e hstop (by omega)
      refine ⟨fun hdo => List.mem_append_right _ ?_, fun hdo => List.mem_append_right _ ?_⟩
      · exact List.mem_cons_of_mem _ (List.mem_cons_of_mem _ (List.mem_cons_of_mem _ (h.1 hdo)))
      · exact List.mem_cons_of_mem _ (List.mem_cons_of_mem _ (List.mem_cons_of_mem _ (h.2 hdo)))

/-- C2 (amended): in every run the first usdr_dms_sync call carries mode
"off" and precedes every stream START; every START precedes the second
usdr_dms_sync call, which carries the caller-requested mode; and no third
sync or later START occurs (the phase automaton never rejects). Moreover,
when stop_on_error is true, if the requested-mode sync call happened (the
trace holds two sync calls) then every enabled stream was started before
it. With stop_on_error false the requested-mode call can run even though an
enabled stream failed to start (see the counterexample). -/
theorem c2_sync_protocol (c : Cfg) (e : Env) :
    (phaseRun c.synctype (main_trace c e) = 0 ∨
      phaseRun c.synctype (main_trace c e) = 1 ∨
      phaseRun c.synctype (main_trace c e) = 2) ∧
    (c.stop_on_error = true → 2 ≤ syncCount (main_trace c e) →
      (c.dorx = true → Ev.start StrId.rx 0 e.rx_start_res ∈ main_trace c e) ∧
      (c.dotx = true → Ev.start StrId.tx 0 e.tx_start_res ∈ main_trace c e)) :=
  ⟨phase_main_trace c e, fun hstop hc => started_main_trace c e hstop hc⟩

/-- An RX-only configuration with stop_on_error off (the -z flag). -/
def cfgRxNoStop : Cfg :=
  ⟨false, true, false, false, false, false, false, false, false, 4096, 4096, 1,
   1, 0, "ci16", "all"⟩

/-- envAllOk except that the RX stream creation fails with code 1, so
usds_rx stays NULL. -/
def envRxCreateFail : Env :=
  ⟨true, true, 0, 0, 0, 0, 0, 0, 1, 0, 1, 0, 0, 1, fun _ => true, fun _ => 0,
   fun _ => 0, 0, 0, 0, 0, 0, 0, 0, 0, fun _ => false, fun _ _ => 0,
   fun _ _ => 0, fun _ => 0, fun _ => 0, 0, 0⟩

/-- C2 counterexample: with -z and a failed RX stream creation, the run
still reaches the requested-mode usdr_dms_sync call (the trace holds both
sync calls) although the enabled RX stream was never started - refuting the
claim that the requested-mode timer_op runs only after every enabled stream
has been started. -/
theorem c2_sync_protocol_counterexample :
    ¬ (2 ≤ syncCount (main_trace cfgRxNoStop envRxCreateFail) →
      (cfgRxNoStop.dorx = true →
        Ev.start StrId.rx 0 envRxCreateFail.rx_start_res ∈
          main_trace cfgRxNoStop envRxCreateFail) ∧
      (cfgRxNoStop.dotx = true →
        Ev.start StrId.tx 0 envRxCreateFail.tx_start_res ∈
          main_trace cfgRxNoStop envRxCreateFail)) := by
  decide

/-- A TX+RX configuration with stop_on_error on. -/
def cfgTxRx : Cfg :=
  ⟨true, true, false, true, false, false, false, false, false, 4096, 4096, 2,
   1, 0, "ci16", "all"⟩

/-- C2 witness: in the all-success TX+RX run, the phase automaton accepts
and both streams are started before the requested-mode sync. -/
theorem c2_sync_protocol_witness :
    (phaseRun cfgTxRx.synctype (main_trace cfgTxRx envAllOk) = 0 ∨
      phaseRun cfgTxRx.synctype (main_trace cfgTxRx envAllOk) = 1 ∨
      phaseRun cfgTxRx.synctype (main_trace cfgTxRx envAllOk) = 2) ∧
    Ev.start StrId.rx 0 envAllOk.rx_start_res ∈ main_trace cfgTxRx envAllOk ∧
    Ev.start StrId.tx 0 envAllOk.tx_start_res ∈ main_trace cfgTxRx envAllOk :=
  ⟨(c2_sync_protocol cfgTxRx envAllOk).1,
   ((c2_sync_protocol cfgTxRx envAllOk).2 rfl (by decide)).1 rfl,
   ((c2_sync_protocol cfgTxRx envAllOk).2 rfl (by decide)).2 rfl⟩

/- ===== Section 6: stop-on-error policy (claim C6) ===== -/

/-- The result code carried by a listed setup step event - the steps the
stop_on_error policy applies to: sample-rate set, stream creation, stream
info query, stream sync, stream START and the dev_data parameter set. -/
def stepRes : Ev → Option Int
  | Ev.rateSet r => some r
  | Ev.rxCreate r => some r
  | Ev.rxInfo r => some r
  | Ev.txCreate r => some r
  | Ev.txInfo r => some r
  | Ev.sync _ r => some r
  | Ev.start _ _ r => some r
  | Ev.findsetv r => some r
  | _ => none

/-- Abort automaton: state 0 while no listed step has failed; a nonzero
listed result moves to state 1, where only stream destroys may follow until
dev_close reaches the end state 2; any other event after a failure, or any
event after dev_close, rejects into state 3. -/
def abortStep : Nat → Ev → Nat
  | 0, ev =>
    match stepRes ev with
    | some r => if r = 0 then 0 else 1
    | none => 0
  | 1, Ev.destroy _ => 1
  | 1, Ev.devClose => 2
  | 1, _ => 3
  | 2, _ => 3
  | s, _ => s

/-- The abort-automaton state a trace ends in. -/
def abortRun (l : List Ev) : Nat := l.foldl abortStep 0

theorem abortRun_teardown0 (a b : Bool) :
    List.foldl abortStep 0 (teardownEv a b) = 0 := by
  cases a <;> cases b <;> rfl

theorem abortRun_teardown1 (a b : Bool) :
    List.foldl abortStep 1 (teardownEv a b) = 2 := by
  cases a <;> cases b <;> rfl

theorem abortRun_txOnlyLoop (c : Cfg) (e : Env) (tb : Nat) : ∀ fuel stm i,
    List.foldl abortStep 0 (txOnlyLoop c e tb stm i fuel) = 0 := by
  intro fuel
  induction fuel with
  | zero => intro stm i; rfl
  | succ f ih =>
    intro stm i
    unfold txOnlyLoop
    split
    · rfl
    · rw [List.foldl_cons]
      have h1 : ∀ bufs s t r, abortStep 0 (Ev.send bufs s t r) = 0 := fun _ _ _ _ => rfl
      rw [h1]
      split
      · rfl
      · exact ih _ _

theorem abortRun_rxOnlyLoop (c : Cfg) (e : Env) (rb : Nat) : ∀ fuel i,
    List.foldl abortStep 0 (rxOnlyLoop c e rb i fuel) = 0 := by
  intro fuel
  induction fuel with
  | zero => intro i; rfl
  | succ f ih =>
    intro i
    unfold rxOnlyLoop
    split
    · rfl
    · rw [List.foldl_cons]
      have h1 : ∀ bufs r, abortStep 0 (Ev.recv bufs r) = 0 := fun _ _ => rfl
      rw [h1]
      split
      · rfl
      · rw [List.foldl_append]
        split
        · rw [List.foldl_cons]
          have h2 : ∀ pa r, abortStep 0 (Ev.dmeSet pa r) = 0 := fun _ _ => rfl
          rw [h2]
          exact ih _
        · exact ih _

theorem abortRun_txrxLoop (c : Cfg) (e : Env) (tb rb : Nat) : ∀ fuel ts0 i,
    List.foldl abortStep 0 (txrxLoop c e tb rb ts0 i fuel) = 0 := by
  intro fuel
  induction fuel with
  | zero => intro ts0 i; rfl
  | succ f ih =>
    intro ts0 i
    unfold txrxLoop
    split
    · rfl
    · rw [List.foldl_cons]
      have h1 : ∀ bufs s t r, abortStep 0 (Ev.send bufs s t r) = 0 := fun _ _ _ _ => rfl
      rw [h1]
      split
      · rfl
      · rw [List.foldl_cons]
        have h2 : ∀ bufs r, abortStep 0 (Ev.recv bufs r) = 0 := fun _ _ => rfl
        rw [h2]
        split
        · rfl
        · exact ih _ _

theorem abortRun_stopTrace (c : Cfg) (e : Env) :
    List.foldl abortStep 0 (stopTrace c e) = 0 := by
  have hstop : ∀ s r, abortStep 0 (Ev.stopS s r) = 0 := fun _ _ => rfl
  unfold stopTrace
  rw [List.foldl_append]
  have hpre : List.foldl abortStep 0
      (if c.dorx then
        Ev.stopS StrId.rx e.rx_stop_res ::
          (if e.rx_stop_res ≠ 0 then []
           else if c.dotx then [Ev.stopS StrId.tx e.tx_stop_res] else [])
       else if c.dotx then [Ev.stopS StrId.tx e.tx_stop_res] else []) = 0 := by
    split
    · rw [List.foldl_cons, hstop]
      split
      · rfl
      · split
        · rw [List.foldl_cons, hstop]
          rfl
        · rfl
    · split
      · rw [List.foldl_cons, hstop]
        rfl
      · rfl
  rw [hpre]
  exact abortRun_teardown0 _ _

theorem abortRun_nullChecks (c : Cfg) (e : Env) (a b : Bool) (tb rb : Nat) :
    List.foldl abortStep 0 (nullChecks c e a b tb rb) = 0 := by
  unfold nullChecks
  split
  · exact abortRun_teardown0 a b
  split
  · exact abortRun_teardown0 a b
  · rw [List.foldl_append]
    have hl : List.foldl abortStep 0 (loopTrace c e tb rb) = 0 := by
      unfold loopTrace
      split
      · exact abortRun_txOnlyLoop c e tb _ _ _
      split
      · exact abortRun_rxOnlyLoop c e rb _ _
      · exact abortRun_txrxLoop c e tb rb _ _ _
    rw [hl]
    exact abortRun_stopTrace c e

theorem abort_findsetvReg (c : Cfg) (e : Env) (a b : Bool) (tb rb : Nat)
    (hstop : c.stop_on_error = true) :
    List.foldl abortStep 0 (findsetvReg c e a b tb rb) = 0 ∨
      List.foldl abortStep 0 (findsetvReg c e a b tb rb) = 2 := by
  unfold findsetvReg
  split
  · exact Or.inl (abortRun_nullChecks c e a b tb rb)
  · rw [List.foldl_cons]
    have h1 : abortStep 0 (Ev.findsetv e.findsetv_res) =
        if e.findsetv_res = 0 then 0 else 1 := rfl
    rw [h1]
    by_cases hr : e.findsetv_res = 0
    · rw [if_pos hr, if_neg (fun h => h.1 hr)]
      exact Or.inl (abortRun_nullChecks c e a b tb rb)
    · rw [if_neg hr, if_pos ⟨hr, hstop⟩]
      exact Or.inr (abortRun_teardown1 a b)

theorem abort_antReg (c : Cfg) (e : Env) (a b : Bool) (tb rb : Nat)
    (hstop : c.stop_on_error = true) :
    List.foldl abortStep 0 (antReg c e a b tb rb) = 0 ∨
      List.foldl abortStep 0 (antReg c e a b tb rb) = 2 := by
  unfold antReg
  rw [List.foldl_cons]
  have h1 : ∀ pa r, abortStep 0 (Ev.dmeSet pa r) = 0 := fun _ _ => rfl
  rw [h1]
  exact abort_findsetvReg c e a b tb rb hstop

theorem abort_syncModeReg (c : Cfg) (e : Env) (a b : Bool) (tb rb : Nat)
    (hstop : c.stop_on_error = true) :
    List.foldl abortStep 0 (syncModeReg c e a b tb rb) = 0 ∨
      List.foldl abortStep 0 (syncModeReg c e a b tb rb) = 2 := by
  unfold syncModeReg
  rw [List.foldl_cons]
  have h1 : abortStep 0 (Ev.sync c.synctype e.sync_mode_res) =
      if e.sync_mode_res = 0 then 0 else 1 := rfl
  rw [h1]
  by_cases hr : e.sync_mode_res = 0
  · rw [if_pos hr, if_neg (fun h => h.1 hr)]
    exact abort_antReg c e a b tb rb hstop
  · rw [if_neg hr, if_pos ⟨hr, hstop⟩]
    exact Or.inr (abortRun_teardown1 a b)

theorem abort_startTxReg (c : Cfg) (e : Env) (a b : Bool) (tb rb : Nat)
    (hstop : c.stop_on_error = true) :
    List.foldl abortStep 0 (startTxReg c e a b tb rb) = 0 ∨
      List.foldl abortStep 0 (startTxReg c e a b tb rb) = 2 := by
  unfold startTxReg
  split
  · split
    · rw [List.foldl_cons]
      have h1 : abortStep 0 (Ev.start StrId.tx 0 e.tx_start_res) =
          if e.tx_start_res = 0 then 0 else 1 := rfl
      rw [h1]
      by_cases hr : e.tx_start_res = 0
      · rw [if_pos hr, if_neg (fun h => h.1 hr)]
        exact abort_syncModeReg c e a b tb rb hstop
      · rw [if_neg hr, if_pos ⟨hr, hstop⟩]
        exact Or.inr (abortRun_teardown1 a b)
    · exact Or.inl (abortRun_teardown0 a b)
  · exact abort_syncModeReg c e a b tb rb hstop

theorem abort_startRxReg (c : Cfg) (e : Env) (a b : Bool) (tb rb : Nat)
    (hstop : c.stop_on_error = true) :
    List.foldl abortStep 0 (startRxReg c e a b tb rb) = 0 ∨
      List.foldl abortStep 0 (startRxReg c e a b tb rb) = 2 := by
  unfold startRxReg
  split
  · split
    · rw [List.foldl_cons]
      have h1 : abortStep 0 (Ev.start StrId.rx 0 e.rx_start_res) =
          if e.rx_start_res = 0 then 0 else 1 := rfl
      rw [h1]
      by_cases hr : e.rx_start_res = 0
      · rw [if_pos hr, if_neg (fun h => h.1 hr)]
        exact abort_startTxReg c e a b tb rb hstop
      · rw [if_neg hr, if_pos ⟨hr, hstop⟩]
        exact Or.inr (abortRun_teardown1 a b)
    · exact Or.inl (abortRun_teardown0 a b)
  · exact abort_startTxReg c e a b tb rb hstop

theorem abort_syncOffReg (c : Cfg) (e : Env) (a b : Bool) (tb rb : Nat)
    (hstop : c.stop_on_error = true) :
    List.foldl abortStep 0 (syncOffReg c e a b tb rb) = 0 ∨
      List.foldl abortStep 0 (syncOffReg c e a b tb rb) = 2 := by
  unfold syncOffReg
  rw [List.foldl_cons]
  have h1 : abortStep 0 (Ev.sync "off" e.sync_off_res) =
      if e.sync_off_res = 0 then 0 else 1 := rfl
  rw [h1]
  by_cases hr : e.sync_off_res = 0
  · rw [if_pos hr, if_neg (fun h => h.1 hr)]
    exact abort_startRxReg c e a b tb rb hstop
  · rw [if_neg hr, if_pos ⟨hr, hstop⟩]
    exact Or.inr (abortRun_teardown1 a b)

theorem abort_calReg (c : Cfg) (e : Env) (a b : Bool) (tb rb : Nat)
    (hstop : c.stop_on_error = true) :
    List.foldl abortStep 0 (calReg c e a b tb rb) = 0 ∨
      List.foldl abortStep 0 (calReg c e a b tb rb) = 2 := by
  unfold calReg
  rw [List.foldl_append]
  have hpre : List.foldl abortStep 0
      (if c.cal_freq > 1000000 then [Ev.dmeSet "/dm/sync/cal/freq" e.cal_res]
       else []) = 0 := by
    split <;> rfl
  rw [hpre]
  exact abort_syncOffReg c e a b tb rb hstop

theorem abort_rxThreadsReg (c : Cfg) (e : Env) (a b : Bool) (tb rb : Nat)
    (hstop : c.stop_on_error = true) :
    List.foldl abortStep 0 (rxThreadsReg c e a b tb rb) = 0 ∨
      List.foldl abortStep 0 (rxThreadsReg c e a b tb rb) = 2 := by
  unfold rxThreadsReg
  split
  · split
    · split
      · exact abort_calReg c e a b tb rb hstop
      · exact Or.inl (abortRun_teardown0 false false)
    · exact Or.inl rfl
  · exact abort_calReg c e a b tb rb hstop

theorem abort_txThreadsReg (c : Cfg) (e : Env) (a b : Bool) (tb rb : Nat)
    (hstop : c.stop_on_error = true) :
    List.foldl abortStep 0 (txThreadsReg c e a b tb rb) = 0 ∨
      List.foldl abortStep 0 (txThreadsReg c e a b tb rb) = 2 := by
  unfold txThreadsReg
  split
  · split
    · exact abort_rxThreadsReg c e a b tb rb hstop
    · exact Or.inl (abortRun_teardown0 false false)
  · exact abort_rxThreadsReg c e a b tb rb hstop

theorem abort_maxChsReg (c : Cfg) (e : Env) (a b : Bool) (tb rb : Nat)
    (hstop : c.stop_on_error = true) :
    List.foldl abortStep 0 (maxChsReg c e a b tb rb) = 0 ∨
      List.foldl abortStep 0 (maxChsReg c e a b tb rb) = 2 := by
  unfold maxChsReg
  split
  · exact Or.inl (abortRun_teardown0 false false)
  · exact abort_txThreadsReg c e a b tb rb hstop

theorem abort_txOpenReg (c : Cfg) (e : Env) (b : Bool) (rb : Nat)
    (hstop : c.stop_on_error = true) :
    List.foldl abortStep 0 (txOpenReg c e b rb) = 0 ∨
      List.foldl abortStep 0 (txOpenReg c e b rb) = 2 := by
  unfold txOpenReg
  split
  · rw [List.foldl_cons]
    have h1 : abortStep 0 (Ev.txCreate e.tx_create_res) =
        if e.tx_create_res = 0 then 0 else 1 := rfl
    rw [h1]
    by_cases hr : e.tx_create_res = 0
    · rw [if_pos hr, if_neg (fun h => h hr)]
      rw [List.foldl_cons]
      have h2 : abortStep 0 (Ev.txInfo e.tx_info_res) =
          if e.tx_info_res = 0 then 0 else 1 := rfl
      rw [h2]
      by_cases hr2 : e.tx_info_res = 0
      · rw [if_pos hr2, if_neg (fun h => h hr2)]
        exact abort_maxChsReg c e true b e.tx_channels rb hstop
      · rw [if_neg hr2, if_pos hr2]
        exact Or.inr (abortRun_teardown1 false false)
    · rw [if_neg hr, if_pos hr]
      exact Or.inr (abortRun_teardown1 false false)
  · exact abort_maxChsReg c e false b 0 rb hstop

theorem abort_rxOpenReg (c : Cfg) (e : Env)
    (hstop : c.stop_on_error = true) :
    List.foldl abortStep 0 (rxOpenReg c e) = 0 ∨
      List.foldl abortStep 0 (rxOpenReg c e) = 2 := by
  unfold rxOpenReg
  split
  · rw [List.foldl_cons]
    have h1 : abortStep 0 (Ev.rxCreate e.rx_create_res) =
        if e.rx_create_res = 0 then 0 else 1 := rfl
    rw [h1]
    by_cases hr : e.rx_create_res = 0
    · rw [if_pos hr, if_neg (fun h => h hr)]
      rw [List.foldl_cons]
      have h2 : abortStep 0 (Ev.rxInfo e.rx_info_res) =
          if e.rx_info_res = 0 then 0 else 1 := rfl
      rw [h2]
      by_cases hr2 : e.rx_info_res = 0
      · rw [if_pos hr2, if_neg (fun h => h hr2)]
        exact abort_txOpenReg c e true e.rx_channels hstop
      · rw [if_neg hr2, if_pos hr2]
        exact Or.inr (abortRun_teardown1 false false)
    · rw [if_neg hr, if_pos hr]
      exact Or.inr (abortRun_teardown1 false false)
  · exact abort_txOpenReg c e false 0 hstop

theorem abort_main_trace (c : Cfg) (e : Env)
    (hstop : c.stop_on_error = true) :
    abortRun (main_trace c e) = 0 ∨ abortRun (main_trace c e) = 2 := by
  unfold abortRun main_trace afterDevReg
  split
  · exact Or.inl rfl
  split
  · exact Or.inl rfl
  split
  · exact Or.inl rfl
  · rw [List.foldl_append]
    have hpre : List.foldl abortStep 0
        (if c.refclk then [Ev.dmeSet "/dm/sdr/refclk/path" e.refclk_res]
         else []) = 0 := by
      split <;> rfl
    rw [hpre]
    split
    · exact abort_rxOpenReg c e hstop
    · rw [List.foldl_cons]
      have h1 : ∀ pa r, abortStep 0 (Ev.dmeSet pa r) = 0 := fun _ _ => rfl
      rw [h1, List.foldl_cons]
      have h2 : abortStep 0 (Ev.rateSet e.rate_res) =
          if e.rate_res = 0 then 0 else 1 := rfl
      rw [h2]
      by_cases hr : e.rate_res = 0
      · rw [if_pos hr, if_neg (fun h => h.1 hr)]
        rw [List.foldl_cons, h1]
        exact abort_rxOpenReg c e hstop
      · rw [if_neg hr, if_pos ⟨hr, hstop⟩]
        exact Or.inr (abortRun_teardown1 false false)

theorem prog_findsetvReg (c : Cfg) (e : Env) (a b : Bool) (tb rb : Nat)
    (hni : c.noinit = false) :
    Ev.findsetv e.findsetv_res ∈ findsetvReg c e a b tb rb := by
  unfold findsetvReg
  rw [if_neg (by simp [hni])]
  exact List.mem_cons_self _ _

theorem prog_antReg (c : Cfg) (e : Env) (a b : Bool) (tb rb : Nat)
    (hni : c.noinit = false) :
    Ev.findsetv e.findsetv_res ∈ antReg c e a b tb rb := by
  unfold antReg
  exact List.mem_cons_of_mem _ (prog_findsetvReg c e a b tb rb hni)

theorem prog_syncModeReg (c : Cfg) (e : Env) (a b : Bool) (tb rb : Nat)
    (hstop : c.stop_on_error = false) :
    Ev.sync c.synctype e.sync_mode_res ∈ syncModeReg c e a b tb rb ∧
      (c.noinit = false → Ev.findsetv e.findsetv_res ∈ syncModeReg c e a b tb rb) := by
  unfold syncModeReg
  refine ⟨List.mem_cons_self _ _, fun hni => ?_⟩
  rw [if_neg (fun h => by simp [hstop] at h)]
  exact List.mem_cons_of_mem _ (prog_antReg c e a b tb rb hni)

theorem prog_startTxReg (c : Cfg) (e : Env) (a b : Bool) (tb rb : Nat)
    (hstop : c.stop_on_error = false) :
    Ev.sync c.synctype e.sync_mode_res ∈ startTxReg c e a b tb rb ∧
      (c.noinit = false → Ev.findsetv e.findsetv_res ∈ startTxReg c e a b tb rb) := by
  unfold startTxReg
  have h := prog_syncModeReg c e a b tb rb hstop
  split
  · split
    · rw [if_neg (fun hx => by simp [hstop] at hx)]
      exact ⟨List.mem_cons_of_mem _ h.1, fun hni => List.mem_cons_of_mem _ (h.2 hni)⟩
    · rw [if_neg (by simp [hstop])]
      exact h
  · exact h

theorem prog_startRxReg (c : Cfg) (e : Env) (a b : Bool) (tb rb : Nat)
    (hstop : c.stop_on_error = false) :
    Ev.sync c.synctype e.sync_mode_res ∈ startRxReg c e a b tb rb ∧
      (c.noinit = false → Ev.findsetv e.findsetv_res ∈ startRxReg c e a b tb rb) := by
  unfold startRxReg
  have h := prog_startTxReg c e a b tb rb hstop
  split
  · split
    · rw [if_neg (fun hx => by simp [hstop] at hx)]
      exact ⟨List.mem_cons_of_mem _ h.1, fun hni => List.mem_cons_of_mem _ (h.2 hni)⟩
    · rw [if_neg (by simp [hstop])]
      exact h
  · exact h

theorem prog_syncOffReg (c : Cfg) (e : Env) (a b : Bool) (tb rb : Nat)
    (hstop : c.stop_on_error = false) :
    Ev.sync "off" e.sync_off_res ∈ syncOffReg c e a b tb rb ∧
      Ev.sync c.synctype e.sync_mode_res ∈ syncOffReg c e a b tb rb ∧
      (c.noinit = false → Ev.findsetv e.findsetv_res ∈ syncOffReg c e a b tb rb) := by
  unfold syncOffReg
  have h := prog_startRxReg c e a b tb rb hstop
  refine ⟨List.mem_cons_self _ _, ?_, fun hni => ?_⟩ <;>
    rw [if_neg (fun hx => by simp [hstop] at hx)]
  · exact List.mem_cons_of_mem _ h.1
  · exact List.mem_cons_of_mem _ (h.2 hni)

theorem prog_calReg (c : Cfg) (e : Env) (a b : Bool) (tb rb : Nat)
    (hstop : c.stop_on_error = false) :
    Ev.sync "off" e.sync_off_res ∈ calReg c e a b tb rb ∧
      Ev.sync c.synctype e.sync_mode_res ∈ calReg c e a b tb rb ∧
      (c.noinit = false → Ev.findsetv e.findsetv_res ∈ calReg c e a b tb rb) := by
  unfold calReg
  have h := prog_syncOffReg c e a b tb rb hstop
  exact ⟨List.mem_append_right _ h.1, List.mem_append_right _ h.2.1,
    fun hni => List.mem_append_right _ (h.2.2 hni)⟩

theorem rxFilesOkB_of_all (e : Env) (rb : Nat)
    (hf : ∀ f, e.rx_file_ok f = true) : rxFilesOkB e rb = true := by
  simp [rxFilesOkB, List.all_eq_true, hf]

theorem threadsOkB_of_all (r : Nat → Int) (n : Nat)
    (hr : ∀ i, r i = 0) : threadsOkB r n = true := by
  simp [threadsOkB, List.all_eq_true, hr]

theorem prog_rxThreadsReg (c : Cfg) (e : Env) (a b : Bool) (tb rb : Nat)
    (hstop : c.stop_on_error = false)
    (hf : ∀ f, e.rx_file_ok f = true) (hrth : ∀ i, e.rx_thread_res i = 0) :
    Ev.sync "off" e.sync_off_res ∈ rxThreadsReg c e a b tb rb ∧
      Ev.sync c.synctype e.sync_mode_res ∈ rxThreadsReg c e a b tb rb ∧
      (c.noinit = false → Ev.findsetv e.findsetv_res ∈ rxThreadsReg c e a b tb rb) := by
  unfold rxThreadsReg
  have h := prog_calReg c e a b tb rb hstop
  split
  · rw [if_pos (rxFilesOkB_of_all e rb hf), if_pos (threadsOkB_of_all _ rb hrth)]
    exact h
  · exact h

theorem prog_txThreadsReg (c : Cfg) (e : Env) (a b : Bool) (tb rb : Nat)
    (hstop : c.stop_on_error = false)
    (hf : ∀ f, e.rx_file_ok f = true) (hrth : ∀ i, e.rx_thread_res i = 0)
    (htth : ∀ i, e.tx_thread_res i = 0) :
    Ev.sync "off" e.sync_off_res ∈ txThreadsReg c e a b tb rb ∧
      Ev.sync c.synctype e.sync_mode_res ∈ txThreadsReg c e a b tb rb ∧
      (c.noinit = false → Ev.findsetv e.findsetv_res ∈ txThreadsReg c e a b tb rb) := by
  unfold txThreadsReg
  have h := prog_rxThreadsReg c e a b tb rb hstop hf hrth
  split
  · rw [if_pos (threadsOkB_of_all _ tb htth)]
    exact h
  · exact h

theorem prog_maxChsReg (c : Cfg) (e : Env) (a b : Bool) (tb rb : Nat)
    (hstop : c.stop_on_error = false)
    (hf : ∀ f, e.rx_file_ok f = true) (hrth : ∀ i, e.rx_thread_res i = 0)
    (htth : ∀ i, e.tx_thread_res i = 0) :
    Ev.sync "off" e.sync_off_res ∈ maxChsReg c e a b tb rb ∧
      Ev.sync c.synctype e.sync_mode_res ∈ maxChsReg c e a b tb rb ∧
      (c.noinit = false → Ev.findsetv e.findsetv_res ∈ maxChsReg c e a b tb rb) := by
  unfold maxChsReg
  rw [if_neg (fun hx => by simp [hstop] at hx)]
  exact prog_txThreadsReg c e a b tb rb hstop hf hrth htth

theorem prog_txOpenReg (c : Cfg) (e : Env) (b : Bool) (rb : Nat)
    (hstop : c.stop_on_error = false)
    (hf : ∀ f, e.rx_file_ok f = true) (hrth : ∀ i, e.rx_thread_res i = 0)
    (htth : ∀ i, e.tx_thread_res i = 0) :
    Ev.sync "off" e.sync_off_res ∈ txOpenReg c e b rb ∧
      Ev.sync c.synctype e.sync_mode_res ∈ txOpenReg c e b rb ∧
      (c.noinit = false → Ev.findsetv e.findsetv_res ∈ txOpenReg c e b rb) := by
  unfold txOpenReg
  split
  · by_cases hr : e.tx_create_res ≠ 0
    · rw [if_pos hr, if_neg (by simp [hstop])]
      have h := prog_maxChsReg c e false b 0 rb hstop hf hrth htth
      exact ⟨List.mem_cons_of_mem _ h.1, List.mem_cons_of_mem _ h.2.1,
        fun hni => List.mem_cons_of_mem _ (h.2.2 hni)⟩
    · rw [if_neg hr]
      by_cases hr2 : e.tx_info_res ≠ 0
      · rw [if_pos hr2, if_neg (by simp [hstop])]
        have h := prog_maxChsReg c e true b 0 rb hstop hf hrth htth
        exact ⟨List.mem_cons_of_mem _ (List.mem_cons_of_mem _ h.1),
          List.mem_cons_of_mem _ (List.mem_cons_of_mem _ h.2.1),
          fun hni => List.mem_cons_of_mem _ (List.mem_cons_of_mem _ (h.2.2 hni))⟩
      · rw [if_neg hr2]
        have h := prog_maxChsReg c e true b e.tx_channels rb hstop hf hrth htth
        exact ⟨List.mem_cons_of_mem _ (List.mem_cons_of_mem _ h.1),
          List.mem_cons_of_mem _ (List.mem_cons_of_mem _ h.2.1),
          fun hni => List.mem_cons_of_mem _ (List.mem_cons_of_mem _ (h.2.2 hni))⟩
  · exact prog_maxChsReg c e false b 0 rb hstop hf hrth htth

theorem prog_rxOpenReg (c : Cfg) (e : Env)
    (hstop : c.stop_on_error = false)
    (hf : ∀ f, e.rx_file_ok f = true) (hrth : ∀ i, e.rx_thread_res i = 0)
    (htth : ∀ i, e.tx_thread_res i = 0) :
    Ev.sync "off" e.sync_off_res ∈ rxOpenReg c e ∧
      Ev.sync c.synctype e.sync_mode_res ∈ rxOpenReg c e ∧
      (c.noinit = false → Ev.findsetv e.findsetv_res ∈ rxOpenReg c e) := by
  unfold rxOpenReg
  split
  · by_cases hr : e.rx_create_res ≠ 0
    · rw [if_pos hr, if_neg (by simp [hstop])]
      have h := prog_txOpenReg c e false 0 hstop hf hrth htth
      exact ⟨List.mem_cons_of_mem _ h.1, List.mem_cons_of_mem _ h.2.1,
        fun hni => List.mem_cons_of_mem _ (h.2.2 hni)⟩
    · rw [if_neg hr]
      by_cases hr2 : e.rx_info_res ≠ 0
      · rw [if_pos hr2, if_neg (by simp [hstop])]
        have h := prog_txOpenReg c e true 0 hstop hf hrth htth
        exact ⟨List.mem_cons_of_mem _ (List.mem_cons_of_mem _ h.1),
          List.mem_cons_of_mem _ (List.mem_cons_of_mem _ h.2.1),
          fun hni => List.mem_cons_of_mem _ (List.mem_cons_of_mem _ (h.2.2 hni))⟩
      · rw [if_neg hr2]
        have h := prog_txOpenReg c e true e.rx_channels hstop hf hrth htth
        exact ⟨List.mem_cons_of_mem _ (List.mem_cons_of_mem _ h.1),
          List.mem_cons_of_mem _ (List.mem_cons_of_mem _ h.2.1),
          fun hni => List.mem_cons_of_mem _ (List.mem_cons_of_mem _ (h.2.2 hni))⟩
  · exact prog_txOpenReg c e false 0 hstop hf hrth htth

theorem prog_main_trace (c : Cfg) (e : Env)
    (hstop : c.stop_on_error = false)
    (hin : c.dotx = true → e.in_file0_ok = true)
    (hout : c.dorx = true → e.out_file0_ok = true)
    (hdev : e.dev_create_res = 0)
    (hf : ∀ f, e.rx_file_ok f = true) (hrth : ∀ i, e.rx_thread_res i = 0)
    (htth : ∀ i, e.tx_thread_res i = 0) :
    Ev.sync "off" e.sync_off_res ∈ main_trace c e ∧
      Ev.sync c.synctype e.sync_mode_res ∈ main_trace c e ∧
      (c.noinit = false → Ev.findsetv e.findsetv_res ∈ main_trace c e) := by
  unfold main_trace afterDevReg
  rw [if_neg (fun hx => by simp [hin hx.1] at hx), if_neg (fun hx => by simp [hout hx.1] at hx),
    if_neg (by simp [hdev])]
  have h := prog_rxOpenReg c e hstop hf hrth htth
  refine ⟨List.mem_append_right _ ?_, List.mem_append_right _ ?_, fun hni =>
    List.mem_append_right _ ?_⟩
  · by_cases hni2 : c.noinit = true
    · rw [if_pos hni2]
      exact h.1
    · rw [if_neg hni2]
      refine List.mem_cons_of_mem _ (List.mem_cons_of_mem _ ?_)
      rw [if_neg (fun hx => by simp [hstop] at hx)]
      exact List.mem_cons_of_mem _ h.1
  · by_cases hni2 : c.noinit = true
    · rw [if_pos hni2]
      exact h.2.1
    · rw [if_neg hni2]
      refine List.mem_cons_of_mem _ (List.mem_cons_of_mem _ ?_)
      rw [if_neg (fun hx => by simp [hstop] at hx)]
      exact List.mem_cons_of_mem _ h.2.1
  · rw [if_neg (by simp [hni])]
    refine List.mem_cons_of_mem _ (List.mem_cons_of_mem _ ?_)
    rw [if_neg (fun hx => by simp [hstop] at hx)]
    exact List.mem_cons_of_mem _ (h.2.2 hni)

/-- C6: with stop_on_error true (the default), a nonzero result from any
listed setup step (sample-rate set, stream create, stream info, stream
sync, stream START, dev_data parameter set) aborts the whole sequence: the
abort automaton ends in state 0 (no listed step failed) or state 2 (after
the first listed failure the trace held only stream destroys closed by
dev_close, i.e. control jumped to teardown and no later step ran). With
stop_on_error false (-z) and the environment-side aborts absent (data files
and worker threads fine, device opens), the run proceeds best-effort
through the remaining steps: both sync calls and (without -X) the final
dev_data parameter set are still reached, whatever the listed steps
returned. -/
theorem c6_stop_on_error_policy (c : Cfg) (e : Env) :
    (c.stop_on_error = true →
      abortRun (main_trace c e) = 0 ∨ abortRun (main_trace c e) = 2) ∧
    (c.stop_on_error = false → (c.dotx = true → e.in_file0_ok = true) →
      (c.dorx = true → e.out_file0_ok = true) → e.dev_create_res = 0 →
      (∀ f, e.rx_file_ok f = true) → (∀ i, e.rx_thread_res i = 0) →
      (∀ i, e.tx_thread_res i = 0) →
      Ev.sync "off" e.sync_off_res ∈ main_trace c e ∧
        Ev.sync c.synctype e.sync_mode_res ∈ main_trace c e ∧
        (c.noinit = false → Ev.findsetv e.findsetv_res ∈ main_trace c e)) :=
  ⟨fun hstop => abort_main_trace c e hstop,
   fun hstop hin hout hdev hf hrth htth =>
     prog_main_trace c e hstop hin hout hdev hf hrth htth⟩

/-- C6 witness: the default-policy TX+RX run ends with the abort automaton
accepting, and a -z RX-only run still reaches both syncs and the parameter
set. -/
theorem c6_stop_on_error_policy_witness :
    (abortRun (main_trace cfgTxRx envAllOk) = 0 ∨
      abortRun (main_trace cfgTxRx envAllOk) = 2) ∧
    (Ev.sync "off" envAllOk.sync_off_res ∈ main_trace cfgRxNoStop envAllOk ∧
      Ev.sync cfgRxNoStop.synctype envAllOk.sync_mode_res ∈
        main_trace cfgRxNoStop envAllOk ∧
      (cfgRxNoStop.noinit = false →
        Ev.findsetv envAllOk.findsetv_res ∈ main_trace cfgRxNoStop envAllOk)) :=
  ⟨(c6_stop_on_error_policy cfgTxRx envAllOk).1 rfl,
   (c6_stop_on_error_policy cfgRxNoStop envAllOk).2 rfl (by decide) (by decide)
     rfl (fun _ => rfl) (fun _ => rfl) (fun _ => rfl)⟩

/- ===== Section 7: teardown on exit paths (claim C7) ===== -/

/-- The trace ends with the dev_close teardown for stream-list flags a
(strms[1], TX) and b (strms[0], RX): the destroys of exactly the non-NULL
entries, TX first, then the device close. -/
def endsWithTd (l : List Ev) (a b : Bool) : Prop :=
  ∃ pre, l = pre ++ teardownEv a b

theorem endsWithTd_self (a b : Bool) : endsWithTd (teardownEv a b) a b :=
  ⟨[], rfl⟩

theorem endsWithTd_cons (ev : Ev) (l : List Ev) (a b : Bool)
    (h : endsWithTd l a b) : endsWithTd (ev :: l) a b := by
  rcases h with ⟨p, hp⟩
  exact ⟨ev :: p, by rw [hp, List.cons_append]⟩

theorem endsWithTd_append (l1 l2 : List Ev) (a b : Bool)
    (h : endsWithTd l2 a b) : endsWithTd (l1 ++ l2) a b := by
  rcases h with ⟨p, hp⟩
  exact ⟨l1 ++ p, by rw [hp, List.append_assoc]⟩

theorem endsWithTd_stopTrace (c : Cfg) (e : Env) :
    endsWithTd (stopTrace c e) c.dotx c.dorx :=
  ⟨_, rfl⟩

theorem td_nullChecks (c : Cfg) (e : Env) (a b : Bool) (tb rb : Nat)
    (ha : a = true → c.dotx = true) (hb : b = true → c.dorx = true) :
    endsWithTd (nullChecks c e a b tb rb) a b := by
  unfold nullChecks
  split
  · exact endsWithTd_self a b
  split
  · exact endsWithTd_self a b
  · rename_i h1 h2
    have hax : a = c.dotx := by
      cases a with
      | true => exact (ha rfl).symm
      | false =>
        cases hdx : c.dotx with
        | false => rfl
        | true => exact absurd ⟨hdx, by simp⟩ h1
    have hbx : b = c.dorx := by
      cases b with
      | true => exact (hb rfl).symm
      | false =>
        cases hdx : c.dorx with
        | false => rfl
        | true => exact absurd ⟨hdx, by simp⟩ h2
    rw [hax, hbx]
    exact endsWithTd_append _ _ _ _ (endsWithTd_stopTrace c e)

theorem td_findsetvReg (c : Cfg) (e : Env) (a b : Bool) (tb rb : Nat)
    (ha : a = true → c.dotx = true) (hb : b = true → c.dorx = true) :
    endsWithTd (findsetvReg c e a b tb rb) a b := by
  unfold findsetvReg
  split
  · exact td_nullChecks c e a b tb rb ha hb
  · refine endsWithTd_cons _ _ a b ?_
    split
    · exact endsWithTd_self a b
    · exact td_nullChecks c e a b tb rb ha hb

theorem td_antReg (c : Cfg) (e : Env) (a b : Bool) (tb rb : Nat)
    (ha : a = true → c.dotx = true) (hb : b = true → c.dorx = true) :
    endsWithTd (antReg c e a b tb rb) a b :=
  endsWithTd_cons _ _ a b (td_findsetvReg c e a b tb rb ha hb)

theorem td_syncModeReg (c : Cfg) (e : Env) (a b : Bool) (tb rb : Nat)
    (ha : a = true → c.dotx = true) (hb : b = true → c.dorx = true) :
    endsWithTd (syncModeReg c e a b tb rb) a b := by
  unfold syncModeReg
  refine endsWithTd_cons _ _ a b ?_
  split
  · exact endsWithTd_self a b
  · exact td_antReg c e a b tb rb ha hb

theorem td_startTxReg (c : Cfg) (e : Env) (a b : Bool) (tb rb : Nat)
    (ha : a = true → c.dotx = true) (hb : b = true → c.dorx = true) :
    endsWithTd (startTxReg c e a b tb rb) a b := by
  unfold startTxReg
  split
  · split
    · refine endsWithTd_cons _ _ a b ?_
      split
      · exact endsWithTd_self a b
      · exact td_syncModeReg c e a b tb rb ha hb
    · split
      · exact endsWithTd_self a b
      · exact td_syncModeReg c e a b tb rb ha hb
  · exact td_syncModeReg c e a b tb rb ha hb

theorem td_startRxReg (c : Cfg) (e : Env) (a b : Bool) (tb rb : Nat)
    (ha : a = true → c.dotx = true) (hb : b = true → c.dorx = true) :
    endsWithTd (startRxReg c e a b tb rb) a b := by
  unfold startRxReg
  split
  · split
    · refine endsWithTd_cons _ _ a b ?_
      split
      · exact endsWithTd_self a b
      · exact td_startTxReg c e a b tb rb ha hb
    · split
      · exact endsWithTd_self a b
      · exact td_startTxReg c e a b tb rb ha hb
  · exact td_startTxReg c e a b tb rb ha hb

theorem td_syncOffReg (c : Cfg) (e : Env) (a b : Bool) (tb rb : Nat)
    (ha : a = true → c.dotx = true) (hb : b = true → c.dorx = true) :
    endsWithTd (syncOffReg c e a b tb rb) a b := by
  unfold syncOffReg
  refine endsWithTd_cons _ _ a b ?_
  split
  · exact endsWithTd_self a b
  · exact td_startRxReg c e a b tb rb ha hb

theorem td_calReg (c : Cfg) (e : Env) (a b : Bool) (tb rb : Nat)
    (ha : a = true → c.dotx = true) (hb : b = true → c.dorx = true) :
    endsWithTd (calReg c e a b tb rb) a b :=
  endsWithTd_append _ _ a b (td_syncOffReg c e a b tb rb ha hb)

theorem sync_not_mem_teardown (m : String) (r : Int) (a b : Bool) :
    Ev.sync m r ∉ teardownEv a b := by
  cases a <;> cases b <;> simp [teardownEv]

theorem td_rxThreadsReg (c : Cfg) (e : Env) (a b : Bool) (tb rb : Nat)
    (ha : a = true → c.dotx = true) (hb : b = true → c.dorx = true)
    (hmem : Ev.sync "off" e.sync_off_res ∈ rxThreadsReg c e a b tb rb) :
    endsWithTd (rxThreadsReg c e a b tb rb) a b := by
  unfold rxThreadsReg at hmem ⊢
  by_cases h1 : c.dorx = true
  · rw [if_pos h1] at hmem ⊢
    by_cases h2 : rxFilesOkB e rb = true
    · rw [if_pos h2] at hmem ⊢
      by_cases h3 : threadsOkB e.rx_thread_res rb = true
      · rw [if_pos h3]
        exact td_calReg c e a b tb rb ha hb
      · rw [if_neg h3] at hmem
        exact absurd hmem (sync_not_mem_teardown _ _ _ _)
    · rw [if_neg h2] at hmem
      exact absurd hmem (by simp)
  · rw [if_neg h1]
    exact td_calReg c e a b tb rb ha hb

theorem td_txThreadsReg (c : Cfg) (e : Env) (a b : Bool) (tb rb : Nat)
    (ha : a = true → c.dotx = true) (hb : b = true → c.dorx = true)
    (hmem : Ev.sync "off" e.sync_off_res ∈ txThreadsReg c e a b tb rb) :
    endsWithTd (txThreadsReg c e a b tb rb) a b := by
  unfold txThreadsReg at hmem ⊢
  by_cases h1 : c.dotx = true
  · rw [if_pos h1] at hmem ⊢
    by_cases h2 : threadsOkB e.tx_thread_res tb = true
    · rw [if_pos h2] at hmem ⊢
      exact td_rxThreadsReg c e a b tb rb ha hb hmem
    · rw [if_neg h2] at hmem
      exact absurd hmem (sync_not_mem_teardown _ _ _ _)
  · rw [if_neg h1] at hmem ⊢
    exact td_rxThreadsReg c e a b tb rb ha hb hmem

theorem td_maxChsReg (c : Cfg) (e : Env) (a b : Bool) (tb rb : Nat)
    (ha : a = true → c.dotx = true) (hb : b = true → c.dorx = true)
    (hmem : Ev.sync "off" e.sync_off_res ∈ maxChsReg c e a b tb rb) :
    endsWithTd (maxChsReg c e a b tb rb) a b := by
  unfold maxChsReg at hmem ⊢
  by_cases h1 : ((rb > 32 ∨ tb > 32) ∧ c.stop_on_error = true)
  · rw [if_pos h1] at hmem
    exact absurd hmem (sync_not_mem_teardown _ _ _ _)
  · rw [if_neg h1] at hmem ⊢
    exact td_txThreadsReg c e a b tb rb ha hb hmem

theorem td_txOpenReg (c : Cfg) (e : Env) (b : Bool) (rb : Nat)
    (hb : b = true → c.dorx = true)
    (hmem : Ev.sync "off" e.sync_off_res ∈ txOpenReg c e b rb) :
    endsWithTd (txOpenReg c e b rb) (c.dotx && (e.tx_create_res == 0)) b := by
  unfold txOpenReg at hmem ⊢
  by_cases h1 : c.dotx = true
  · rw [if_pos h1] at hmem ⊢
    rcases List.mem_cons.mp hmem with h | hmem2
    · exact absurd h (by simp)
    refine endsWithTd_cons _ _ _ _ ?_
    by_cases h2 : e.tx_create_res ≠ 0
    · rw [if_pos h2] at hmem2 ⊢
      by_cases h3 : c.stop_on_error = true
      · rw [if_pos h3] at hmem2
        exact absurd hmem2 (sync_not_mem_teardown _ _ _ _)
      · rw [if_neg h3] at hmem2 ⊢
        have hf : (e.tx_create_res == 0) = false := by
          simp [h2]
        rw [hf, Bool.and_false]
        exact td_maxChsReg c e false b 0 rb (fun h => absurd h (by simp)) hb hmem2
    · rw [if_neg h2] at hmem2 ⊢
      have ht : (e.tx_create_res == 0) = true := by
        simp [of_not_not h2]
      rw [ht, Bool.and_true, h1]
      rcases List.mem_cons.mp hmem2 with h | hmem3
      · exact absurd h (by simp)
      refine endsWithTd_cons _ _ _ _ ?_
      by_cases h3 : e.tx_info_res ≠ 0
      · rw [if_pos h3] at hmem3 ⊢
        by_cases h4 : c.stop_on_error = true
        · rw [if_pos h4] at hmem3
          exact absurd hmem3 (sync_not_mem_teardown _ _ _ _)
        · rw [if_neg h4] at hmem3 ⊢
          exact td_maxChsReg c e true b 0 rb (fun _ => h1) hb hmem3
      · rw [if_neg h3] at hmem3 ⊢
        exact td_maxChsReg c e true b e.tx_channels rb (fun _ => h1) hb hmem3
  · have hdx : c.dotx = false := by
      cases hx : c.dotx with
      | false => rfl
      | true => exact absurd hx h1
    rw [if_neg h1] at hmem ⊢
    rw [hdx, Bool.false_and]
    exact td_maxChsReg c e false b 0 rb (fun h => absurd h (by simp)) hb hmem

theorem td_rxOpenReg (c : Cfg) (e : Env)
    (hmem : Ev.sync "off" e.sync_off_res ∈ rxOpenReg c e) :
    endsWithTd (rxOpenReg c e) (c.dotx && (e.tx_create_res == 0))
      (c.dorx && (e.rx_create_res == 0)) := by
  unfold rxOpenReg at hmem ⊢
  by_cases h1 : c.dorx = true
  · rw [if_pos h1] at hmem ⊢
    rcases List.mem_cons.mp hmem with h | hmem2
    · exact absurd h (by simp)
    refine endsWithTd_cons _ _ _ _ ?_
    by_cases h2 : e.rx_create_res ≠ 0
    · rw [if_pos h2] at hmem2 ⊢
      by_cases h3 : c.stop_on_error = true
      · rw [if_pos h3] at hmem2
        exact absurd hmem2 (sync_not_mem_teardown _ _ _ _)
      · rw [if_neg h3] at hmem2 ⊢
        have hf : (e.rx_create_res == 0) = false := by
          simp [h2]
        rw [hf, Bool.and_false]
        exact td_txOpenReg c e false 0 (fun h => absurd h (by simp)) hmem2
    · rw [if_neg h2] at hmem2 ⊢
      have ht : (e.rx_create_res == 0) = true := by
        simp [of_not_not h2]
      rw [ht, Bool.and_true, h1]
      rcases List.mem_cons.mp hmem2 with h | hmem3
      · exact absurd h (by simp)
      refine endsWithTd_cons _ _ _ _ ?_
      by_cases h3 : e.rx_info_res ≠ 0
      · rw [if_pos h3] at hmem3 ⊢
        by_cases h4 : c.stop_on_error = true
        · rw [if_pos h4] at hmem3
          exact absurd hmem3 (sync_not_mem_teardown _ _ _ _)
        · rw [if_neg h4] at hmem3 ⊢
          exact td_txOpenReg c e true 0 (fun _ => h1) hmem3
      · rw [if_neg h3] at hmem3 ⊢
        exact td_txOpenReg c e true e.rx_channels (fun _ => h1) hmem3
  · have hdx : c.dorx = false := by
      cases hx : c.dorx with
      | false => rfl
      | true => exact absurd hx h1
    rw [if_neg h1] at hmem ⊢
    rw [hdx, Bool.false_and]
    exact td_txOpenReg c e false 0 (fun h => absurd h (by simp)) hmem

/-- C7 (amended): teardown null-checks the strms list and destroys exactly
its non-NULL entries (TX then RX) before closing the device - but only on
exit paths reached after strms is filled (line 684), i.e. in every run that
got as far as the first sync call. The handle flags are dotx with a
successful TX create, and dorx with a successful RX create. Exit paths
taken earlier destroy nothing even when a stream was already acquired, and
a failed extra RX file open exits with no teardown at all (see the
counterexample). -/
theorem c7_teardown_from_sync (c : Cfg) (e : Env)
    (hmem : Ev.sync "off" e.sync_off_res ∈ main_trace c e) :
    endsWithTd (main_trace c e) (c.dotx && (e.tx_create_res == 0))
      (c.dorx && (e.rx_create_res == 0)) := by
  unfold main_trace afterDevReg at hmem ⊢
  by_cases g1 : (c.dotx = true ∧ ¬e.in_file0_ok = true)
  · rw [if_pos g1] at hmem
    exact absurd hmem (by simp)
  rw [if_neg g1] at hmem ⊢
  by_cases g2 : (c.dorx = true ∧ ¬e.out_file0_ok = true)
  · rw [if_pos g2] at hmem
    exact absurd hmem (by simp)
  rw [if_neg g2] at hmem ⊢
  by_cases g3 : e.dev_create_res ≠ 0
  · rw [if_pos g3] at hmem
    exact absurd hmem (by simp)
  rw [if_neg g3] at hmem ⊢
  rcases List.mem_append.mp hmem with h | hmem2
  · revert h
    split <;> simp
  refine endsWithTd_append _ _ _ _ ?_
  by_cases g4 : c.noinit = true
  · rw [if_pos g4] at hmem2 ⊢
    exact td_rxOpenReg c e hmem2
  · rw [if_neg g4] at hmem2 ⊢
    rcases List.mem_cons.mp hmem2 with h | hmem3
    · exact absurd h (by simp)
    rcases List.mem_cons.mp hmem3 with h | hmem4
    · exact absurd h (by simp)
    refine endsWithTd_cons _ _ _ _ (endsWithTd_cons _ _ _ _ ?_)
    by_cases g5 : (e.rate_res ≠ 0 ∧ c.stop_on_error = true)
    · rw [if_pos g5] at hmem4
      exact absurd hmem4 (sync_not_mem_teardown _ _ _ _)
    · rw [if_neg g5] at hmem4 ⊢
      rcases List.mem_cons.mp hmem4 with h | hmem5
      · exact absurd h (by simp)
      exact endsWithTd_cons _ _ _ _ (td_rxOpenReg c e hmem5)

/-- envAllOk except that the TX stream creation fails with code 1. -/
def envTxCreateFail : Env :=
  ⟨true, true, 0, 0, 0, 0, 0, 0, 0, 0, 1, 1, 0, 1, fun _ => true, fun _ => 0,
   fun _ => 0, 0, 0, 0, 0, 0, 0, 0, 0, fun _ => false, fun _ _ => 0,
   fun _ _ => 0, fun _ => 0, fun _ => 0, 0, 0⟩

/-- C7 counterexample: in a TX+RX run under the default stop_on_error where
RX creation succeeds and TX creation then fails, the abort jumps to
dev_close before strms is filled, so the successfully acquired RX handle is
never destroyed - refuting the claim that on every exit path teardown
releases every stream handle that was acquired. -/
theorem c7_teardown_counterexample :
    ¬ ((Ev.rxCreate 0 ∈ main_trace cfgTxRx envTxCreateFail →
        Ev.destroy StrId.rx ∈ main_trace cfgTxRx envTxCreateFail) ∧
      (Ev.txCreate 0 ∈ main_trace cfgTxRx envTxCreateFail →
        Ev.destroy StrId.tx ∈ main_trace cfgTxRx envTxCreateFail)) := by
  decide

/-- C7 witness: the all-success TX+RX run reaches the first sync, and its
trace ends with the teardown destroying both acquired handles. -/
theorem c7_teardown_from_sync_witness :
    Ev.sync "off" envAllOk.sync_off_res ∈ main_trace cfgTxRx envAllOk ∧
      endsWithTd (main_trace cfgTxRx envAllOk)
        (cfgTxRx.dotx && (envAllOk.tx_create_res == 0))
        (cfgTxRx.dorx && (envAllOk.rx_create_res == 0)) :=
  ⟨by decide, c7_teardown_from_sync cfgTxRx envAllOk (by decide)⟩

/- ===== Section 8: ring-buffer timeout use in the main loops (claim C8) ===== -/

/-- envAllOk except that every TX ring-buffer consumer wait times out,
returning the IDX_TIMEDOUT sentinel. -/
def envTxWaitTimeout : Env :=
  ⟨true, true, 0, 0, 0, 0, 0, 0, 0, 0, 1, 0, 0, 1, fun _ => true, fun _ => 0,
   fun _ => 0, 0, 0, 0, 0, 0, 0, 0, 0, fun _ => false,
   fun _ _ => IDX_TIMEDOUT, fun _ _ => 0, fun _ => 0, fun _ => 0, 0, 0⟩

/-- C8 failing input evaluated: in the TX-only run where the ring wait
times out, the main transfer loop logs the timeout but still calls
ring_buffer_at with the IDX_TIMEDOUT sentinel and passes the resulting
buffer - slot index IDX_TIMEDOUT of ring 0 - to usdr_dms_send, refuting
the claim that a timed-out wait result is never used as a slot index. -/
theorem c8_timeout_used_as_index :
    Ev.send [(0, IDX_TIMEDOUT)] cfgTxOnly.samples_tx (start_tx_delay cfgTxOnly)
        0 ∈ main_trace cfgTxOnly envTxWaitTimeout := by
  decide
